import Mathlib

/-!
Shallow embedding of the data-preparation pipeline of
`src/data_processing.py` (functions `get_movements_data`,
`get_events_data`, `get_blank_df`, `get_combined_df`, and the
`__main__` selection of the secondary subset), together with proofs
of the specification's testable properties about it.

DataFrames are modelled as Lists of structure values, one structure
per row shape.  Counts are modelled as `Nat`/`Int`; the float columns
produced by pandas (`n_events` after `fillna`, `event_rate`) are
modelled as exact rationals `ℚ`.  The `datetime` column carried along
by `movements_df` is never used by any computation between the merge
on line 100 and its removal by `drop('datetime', axis=1)` on line 125,
so it is omitted from the row types after that merge.
-/

/-- A parsed timestamp, the result of `pd.to_datetime` on a
`DD/MM/YYYY HH:MM:SS` movement-file timestamp. -/
structure DateTime where
  year : Int
  month : Nat
  day : Nat
  hour : Nat
  minute : Nat
  second : Nat
deriving DecidableEq, Repr

/-- A pandas monthly period, as produced by `Series.dt.to_period('M')`. -/
structure Period where
  year : Int
  month : Nat
deriving DecidableEq, Repr

/-- Embeds `datetime.dt.to_period('M')`: keep the year and calendar month. -/
def DateTime.toPeriod (d : DateTime) : Period := ⟨d.year, d.month⟩

/-- A raw row of one per-city movement CSV: a timestamp and a
movement count (columns named `datetime`, `n_movements` on read). -/
structure RawMoveRow where
  dt : DateTime
  n_movements : Int
deriving DecidableEq, Repr

/-- A row of `movements_df` as returned by `get_movements_data`:
the raw columns plus the `Location` tag and the `month` period. -/
structure MoveRow where
  dt : DateTime
  n_movements : Int
  location : String
  month : Period
deriving DecidableEq, Repr

/-- Embeds `get_movements_data` (src/data_processing.py lines 18-43):
concatenate the four per-city tables each tagged with its city name,
parse timestamps, keep only rows of the requested `year`, and add a
`month` period column.  No grouping or summing is performed. -/
def get_movements_data (blue green red yellow : List RawMoveRow)
    (year : Int := 2022) : List MoveRow :=
  let tagged :=
    blue.map (fun r => (r, "Blue City")) ++ green.map (fun r => (r, "Green City")) ++
    red.map (fun r => (r, "Red City")) ++ yellow.map (fun r => (r, "Yellow City"))
  let filtered := tagged.filter (fun p => decide (p.1.dt.year = year))
  filtered.map (fun p =>
    { dt := p.1.dt, n_movements := p.1.n_movements, location := p.2,
      month := p.1.dt.toPeriod })

/-- A calendar date, the result of parsing an event date string. -/
structure Date where
  year : Int
  month : Nat
  day : Nat
deriving DecidableEq, Repr

/-- strptime's `%y` pivot: two-digit years 00-68 map to 2000-2068,
69-99 map to 1969-1999. -/
def yearFromTwoDigit (yy : Nat) : Int :=
  if yy ≤ 68 then (2000 : Int) + yy else (1900 : Int) + yy

/-- Gregorian leap-year test. -/
def isLeap (y : Int) : Bool :=
  (y % 4 == 0 && y % 100 != 0) || (y % 400 == 0)

/-- Number of days of month `m` of year `y`. -/
def daysInMonth (y : Int) (m : Nat) : Nat :=
  if m = 2 then (if isLeap y then 29 else 28)
  else if m = 4 ∨ m = 6 ∨ m = 9 ∨ m = 11 then 30 else 31

/-- Embeds `pd.to_datetime(..., format="%d-%m-%y")` applied to one string:
day, month and two-digit year separated by `-`, one or two digits for
day and month, exactly two for the year, and the day must exist in
that month.  Returns `none` exactly when pandas would raise. -/
def parseDateDMY (s : String) : Option Date :=
  match s.splitOn "-" with
  | [d, m, y] =>
    match d.toNat?, m.toNat?, y.toNat? with
    | some dd, some mm, some yy =>
      if 1 ≤ d.length ∧ d.length ≤ 2 ∧ 1 ≤ m.length ∧ m.length ≤ 2 ∧
         y.length = 2 ∧ 1 ≤ mm ∧ mm ≤ 12 ∧ 1 ≤ dd ∧
         dd ≤ daysInMonth (yearFromTwoDigit yy) mm then
        some ⟨yearFromTwoDigit yy, mm, dd⟩
      else none
    | _, _, _ => none
  | _ => none

/-- A raw row of `Reported_Events.csv`: the identifier column (used
only for counting), the date string, and the categorical columns. -/
structure RawEventRow where
  event_id : String
  event_date : String
  event_type : String
  aircraft_register : String
  location : String
deriving DecidableEq, Repr

/-- A row of `events_df` as returned by `get_events_data`. -/
structure EventRow where
  event_id : String
  event_date : Date
  event_type : String
  aircraft_register : String
  location : String
  month : Period
deriving DecidableEq, Repr

/-- Embeds `get_events_data` (src/data_processing.py lines 45-61): parse
every `Event_Date` with format `%d-%m-%y` — `pd.to_datetime` raises
on the first unparseable value, so the whole load yields `none` if
any row fails — then keep only rows of the requested `year` and add
the `month` period column. -/
def get_events_data (raws : List RawEventRow) (year : Int := 2022) :
    Option (List EventRow) :=
  match raws.mapM (fun r => (parseDateDMY r.event_date).map (fun d => (r, d))) with
  | none => none
  | some parsed =>
    some (((parsed.filter (fun p => decide (p.2.year = year))).map (fun p =>
      { event_id := p.1.event_id, event_date := p.2, event_type := p.1.event_type,
        aircraft_register := p.1.aircraft_register, location := p.1.location,
        month := ⟨p.2.year, p.2.month⟩ })))

/-- Embeds `pd.period_range(f"{year}-01", f"{year}-12", freq='M')`:
the twelve monthly periods of `year`, in calendar order. -/
def monthsOfYear (year : Int) : List Period :=
  (List.range 12).map (fun i => ⟨year, i + 1⟩)

/-- A row of the blank grid DataFrame built by `get_blank_df`. -/
structure BlankRow where
  month : Period
  event_type : String
  location : String
deriving DecidableEq, Repr

/-- Embeds `get_blank_df` (src/data_processing.py lines 63-88): one row per
(event type, location, month) combination.  The source tiles the
month column `len(event_types)` times and repeats each event type 12
times, pairing row `i` with month `i % 12` and event type `i / 12`;
that pairing is exactly the nested traversal below.  The result is
then stacked once per location with the location column repeated
blockwise, i.e. an outer traversal over `locations`. -/
def get_blank_df (event_types locations : List String) (year : Int := 2022) :
    List BlankRow :=
  let months := monthsOfYear year
  let df := event_types.flatMap (fun et => months.map (fun m => (m, et)))
  locations.flatMap (fun loc => df.map (fun p => ⟨p.1, p.2, loc⟩))

/-- A row of the grouped events table
`events_df.groupby(['Event_Type','month','Location']).count()`
(line 93): the group key and the count of (non-null) `Event_ID`
values in the group, renamed `n_events`. -/
structure GroupedEventRow where
  event_type : String
  month : Period
  location : String
  n_events : Nat
deriving DecidableEq, Repr

/-- Line 93: group `events_df` by `(Event_Type, month, Location)` and
count rows per group (the `Event_ID` column is used only for
counting).  One output row per distinct key. -/
def groupEvents (events : List EventRow) : List GroupedEventRow :=
  let keys := (events.map (fun e => (e.event_type, e.month, e.location))).dedup
  keys.map (fun k =>
    { event_type := k.1, month := k.2.1, location := k.2.2,
      n_events := (events.filter (fun e =>
        decide ((e.event_type, e.month, e.location) = k))).length })

/-- A row of the zero-filled grid after the left merge of line 96 and
the `fillna(0)` of line 97.  `n_events` became a float column in
pandas through the NaN fill, hence `ℚ`. -/
structure CountRow where
  month : Period
  event_type : String
  location : String
  n_events : ℚ
deriving DecidableEq, Repr

/-- Lines 96-97: left-merge the grouped event counts onto the blank
grid on `(month, Event_Type, Location)`; a grid row with no matching
group keeps one row whose missing `n_events` is filled with 0. -/
def mergeLeftEvents (blank : List BlankRow) (grouped : List GroupedEventRow) :
    List CountRow :=
  blank.flatMap (fun b =>
    let ms := grouped.filter (fun g =>
      decide (g.month = b.month ∧ g.event_type = b.event_type ∧
        g.location = b.location))
    if ms = [] then
      [{ month := b.month, event_type := b.event_type, location := b.location,
         n_events := 0 }]
    else
      ms.map (fun g =>
        { month := b.month, event_type := b.event_type, location := b.location,
          n_events := (g.n_events : ℚ) }))

/-- A row of `res_df` from line 100 onwards (also used for the
synthetic rows concatenated on lines 109 and 120).  The unused
`datetime` column is omitted (see module docstring). -/
structure RateRow where
  month : Period
  event_type : String
  location : String
  n_events : ℚ
  n_movements : ℚ
  event_rate : ℚ
deriving DecidableEq, Repr

/-- Line 100: `pd.merge(res_df, movements_df, on=["month","Location"])`
— an inner merge: each zero-filled grid row is paired with every
movement row of the same `(month, Location)`, and grid rows with no
movement match are dropped.  `event_rate` is assigned afterwards
(line 101), so it is initialised to 0 here. -/
def mergeMovements (counts : List CountRow) (movements : List MoveRow) :
    List RateRow :=
  counts.flatMap (fun c =>
    (movements.filter (fun mv =>
      decide (mv.month = c.month ∧ mv.location = c.location))).map (fun mv =>
      { month := c.month, event_type := c.event_type, location := c.location,
        n_events := c.n_events, n_movements := (mv.n_movements : ℚ),
        event_rate := 0 }))

/-- Line 101: `res_df['event_rate'] = res_df.n_events/(res_df.n_movements/1000)`. -/
def addEventRate (rows : List RateRow) : List RateRow :=
  rows.map (fun r => { r with event_rate := r.n_events / (r.n_movements / 1000) })

/-- Lines 104-106: group by `(month, Event_Type)` and sum the numeric
columns (`.sum()` also sums `event_rate`, and concatenates the
`Location` strings), then recompute `event_rate` from the summed
counts and overwrite `Location` with `'All Cities'`. -/
def allCitiesRows (rows : List RateRow) : List RateRow :=
  let keys := (rows.map (fun r => (r.month, r.event_type))).dedup
  let all_df := keys.map (fun k =>
    let grp := rows.filter (fun r => decide ((r.month, r.event_type) = k))
    { month := k.1, event_type := k.2,
      location := (grp.map (fun r => r.location)).foldl (· ++ ·) "",
      n_events := (grp.map (fun r => r.n_events)).sum,
      n_movements := (grp.map (fun r => r.n_movements)).sum,
      event_rate := (grp.map (fun r => r.event_rate)).sum : RateRow })
  all_df.map (fun r =>
    { r with event_rate := r.n_events / (r.n_movements / 1000),
             location := "All Cities" })

/-- Line 117: `res_df.groupby(['Location','month']).max().n_movements`
— the largest `n_movements` in each `(Location, month)` group. -/
def maxMovements (rows : List RateRow) : List (String × Period × ℚ) :=
  let keys := (rows.map (fun r => (r.location, r.month))).dedup
  keys.map (fun k =>
    let grp := (rows.filter (fun r =>
      decide ((r.location, r.month) = k))).map (fun r => r.n_movements)
    (k.1, k.2, grp.foldl max (grp.headD 0)))

/-- Lines 112-118: group by `(month, Location)` and sum (summing
`n_events` and `event_rate`; the summed `n_movements` column is
dropped on line 113), set `Event_Type` to `'All Types'`, then
inner-merge the per-`(Location, month)` maximum movement counts back
on to restore `n_movements`.  The dropped column is modelled by the
placeholder 0 that the merge overwrites. -/
def allTypesRows (rows : List RateRow) : List RateRow :=
  let keys := (rows.map (fun r => (r.month, r.location))).dedup
  let all_types := keys.map (fun k =>
    let grp := rows.filter (fun r => decide ((r.month, r.location) = k))
    { month := k.1, event_type := "All Types", location := k.2,
      n_events := (grp.map (fun r => r.n_events)).sum,
      n_movements := 0,
      event_rate := (grp.map (fun r => r.event_rate)).sum : RateRow })
  let n_movements := maxMovements rows
  all_types.flatMap (fun t =>
    (n_movements.filter (fun p =>
      decide (p.1 = t.location ∧ p.2.1 = t.month))).map (fun p =>
      { t with n_movements := p.2.2 }))

/-- Embeds `strftime('%B')`: the full English month name. -/
def monthName : Nat → String
  | 1 => "January"
  | 2 => "February"
  | 3 => "March"
  | 4 => "April"
  | 5 => "May"
  | 6 => "June"
  | 7 => "July"
  | 8 => "August"
  | 9 => "September"
  | 10 => "October"
  | 11 => "November"
  | 12 => "December"
  | _ => ""

/-- A row of the final processed table: the month is now a name
string and the `datetime` column has been dropped. -/
structure FinalRow where
  month : String
  event_type : String
  location : String
  n_events : ℚ
  n_movements : ℚ
  event_rate : ℚ
deriving DecidableEq, Repr

/-- The body of `get_combined_df` up to line 120: zero-filled grid
joined with movements and rates (lines 93-101), the `'All Cities'`
rows appended (lines 104-109), and the `'All Types'` rows prepended
(lines 112-120). -/
def combinedUnsorted (movements_df : List MoveRow) (events_df : List EventRow)
    (blank_df : List BlankRow) : List RateRow :=
  let grouped := groupEvents events_df
  let zeroFilled := mergeLeftEvents blank_df grouped
  let res1 := addEventRate (mergeMovements zeroFilled movements_df)
  let res2 := res1 ++ allCitiesRows res1
  allTypesRows res2 ++ res2

/-- Boolean month-period order used for the final sort. -/
def periodLeB (p q : Period) : Bool :=
  p.year < q.year || (p.year = q.year && p.month ≤ q.month)

/-- The month order lifted to rows. -/
def rowLeByMonth (a b : RateRow) : Prop := periodLeB a.month b.month = true

instance : DecidableRel rowLeByMonth := fun _ _ => inferInstanceAs (Decidable (_ = true))

instance : IsTotal RateRow rowLeByMonth where
  total a b := by
    unfold rowLeByMonth periodLeB
    simp only [Bool.or_eq_true, Bool.and_eq_true, decide_eq_true_eq]
    omega

instance : IsTrans RateRow rowLeByMonth where
  trans a b c hab hbc := by
    unfold rowLeByMonth periodLeB at hab hbc ⊢
    simp only [Bool.or_eq_true, Bool.and_eq_true, decide_eq_true_eq] at hab hbc ⊢
    omega

/-- Line 123: `res_df.sort_values('month')` — reorder into
non-decreasing month order (insertion sort; `sort_values` guarantees
only the ordering by the key column). -/
def sortByMonth (rows : List RateRow) : List RateRow :=
  List.insertionSort rowLeByMonth rows

/-- Embeds `get_combined_df` (src/data_processing.py lines 90-127): the
combined table, sorted by month, with the month column converted to
its name string (line 124) and the `datetime` column dropped
(line 125). -/
def get_combined_df (movements_df : List MoveRow) (events_df : List EventRow)
    (blank_df : List BlankRow) : List FinalRow :=
  (sortByMonth (combinedUnsorted movements_df events_df blank_df)).map (fun r =>
    { month := monthName r.month.month, event_type := r.event_type,
      location := r.location, n_events := r.n_events,
      n_movements := r.n_movements, event_rate := r.event_rate })

/-- Embeds `__main__` line 138: the Loss-of-Separation rows of the
year-filtered events. -/
def selected_los (events_df : List EventRow) : List EventRow :=
  events_df.filter (fun e => decide (e.event_type = "Loss of Separation"))

/-- Embeds `__main__` line 139: the Facility-Issue rows for Red City in May
2022 (the `month=='2022-05'` comparison against the period column). -/
def selected_fac (events_df : List EventRow) : List EventRow :=
  events_df.filter (fun e =>
    decide (e.location = "Red City" ∧ e.month = ⟨2022, 5⟩ ∧
      e.event_type = "Facility Issue"))

/-- Embeds `__main__` line 140: the secondary serialized subset. -/
def selected_df (events_df : List EventRow) : List EventRow :=
  selected_los events_df ++ selected_fac events_df

/-! ## Value functions describing the pipeline's output

The following functions are what the pipeline provably computes; the
lemmas below relate the embedded source functions to them. -/

/-- The number of events of type `et` in month `m` at location `loc`. -/
def countEvents (events : List EventRow) (et : String) (m : Period)
    (loc : String) : Nat :=
  (events.filter (fun e =>
    decide (e.event_type = et ∧ e.month = m ∧ e.location = loc))).length

/-- The total movement count recorded for `loc` in month `m` (the sum
over however many movement rows match; exactly one in the intended
data). -/
def movementsAt (movements : List MoveRow) (loc : String) (m : Period) : ℚ :=
  ((movements.filter (fun mv =>
    decide (mv.month = m ∧ mv.location = loc))).map
      (fun mv => (mv.n_movements : ℚ))).sum

/-- The per-city row of the combined table for `(et, m, loc)`. -/
def gridRateRow (events : List EventRow) (movements : List MoveRow)
    (et : String) (m : Period) (loc : String) : RateRow :=
  { month := m, event_type := et, location := loc,
    n_events := (countEvents events et m loc : ℚ),
    n_movements := movementsAt movements loc m,
    event_rate := (countEvents events et m loc : ℚ) /
      (movementsAt movements loc m / 1000) }

/-! ## Generic list helpers -/

/-- A `flatMap` each of whose fibres is a singleton is a `map`. -/
theorem flatMap_eq_map_of_singleton {α β : Type*} {l : List α} {f : α → List β}
    {g : α → β} (h : ∀ a ∈ l, f a = [g a]) : l.flatMap f = l.map g := by
  induction l with
  | nil => rfl
  | cons x xs ih =>
    rw [List.flatMap_cons, List.map_cons, h x (by simp),
      ih (fun a ha => h a (by simp [ha])), List.singleton_append]

/-- Filtering a duplicate-free list for one value yields that value
once if present, nothing otherwise. -/
theorem filter_eq_of_nodup {α : Type*} [DecidableEq α] {l : List α}
    (hl : l.Nodup) (a : α) :
    l.filter (fun x => decide (x = a)) = if a ∈ l then [a] else [] := by
  induction l with
  | nil => simp
  | cons x xs ih =>
    rw [List.nodup_cons] at hl
    by_cases hxa : x = a
    · subst hxa
      have hnot : xs.filter (fun y => decide (y = x)) = [] := by
        rw [List.filter_eq_nil_iff]
        intro b hb
        simp only [decide_eq_true_eq]
        intro hba
        exact hl.1 (hba ▸ hb)
      simp [List.filter_cons, hnot]
    · have : xs.filter (fun y => decide (y = a)) = if a ∈ xs then [a] else [] :=
        ih hl.2
      simp [List.filter_cons, hxa, this, List.mem_cons, Ne.symm hxa]

/-- De-duplicating a constant `flatMap` over a nonempty index list
de-duplicates the fibre. -/
theorem dedup_flatMap_const {α β : Type*} [DecidableEq β] {l : List α}
    (P : List β) (h : l ≠ []) :
    (l.flatMap fun _ => P).dedup = P.dedup := by
  induction l with
  | nil => exact absurd rfl h
  | cons x xs ih =>
    rcases eq_or_ne xs [] with hxs | hxs
    · subst hxs; simp
    · rw [List.flatMap_cons, List.dedup_append, ih hxs]
      exact List.Subset.union_eq_right (fun a ha => List.mem_dedup.mpr ha)

/-- Folding `max` over a constant list starting at its head gives the
constant. -/
theorem foldl_max_const {l : List ℚ} {v : ℚ} (h : ∀ x ∈ l, x = v)
    (hne : l ≠ []) : l.foldl max (l.headD 0) = v := by
  have aux : ∀ t : List ℚ, (∀ x ∈ t, x = v) → t.foldl max v = v := by
    intro t
    induction t with
    | nil => intro _; rfl
    | cons y ys ih =>
      intro ht
      rw [List.foldl_cons, ht y (by simp), max_self]
      exact ih (fun x hx => ht x (by simp [hx]))
  cases l with
  | nil => exact absurd rfl hne
  | cons y ys =>
    rw [List.headD_cons, h y (by simp), List.foldl_cons, max_self]
    exact aux ys (fun x hx => h x (by simp [hx]))

/-- Distributing a common denominator out of a sum. -/
theorem sum_map_div {α : Type*} (l : List α) (f : α → ℚ) (d : ℚ) :
    (l.map fun x => f x / d).sum = (l.map f).sum / d := by
  induction l with
  | nil => simp
  | cons x xs ih => simp [ih, add_div]

/-! ## The zero-filled grid (lines 93-97) -/

/-- The left merge of the grouped event counts onto the blank grid,
zero-filled: one row per grid row, carrying the event count for that
grid key. -/
theorem mergeLeftEvents_groupEvents (blank : List BlankRow)
    (events : List EventRow) :
    mergeLeftEvents blank (groupEvents events) =
      blank.map (fun b =>
        { month := b.month, event_type := b.event_type, location := b.location,
          n_events :=
            (countEvents events b.event_type b.month b.location : ℚ) }) := by
  unfold mergeLeftEvents
  apply flatMap_eq_map_of_singleton
  intro b _
  have hkeys : ((events.map fun e => (e.event_type, e.month, e.location)).dedup).filter
      (fun k => decide (k.2.1 = b.month ∧ k.1 = b.event_type ∧ k.2.2 = b.location)) =
      if (b.event_type, b.month, b.location) ∈
          (events.map fun e => (e.event_type, e.month, e.location)) then
        [(b.event_type, b.month, b.location)] else [] := by
    rw [List.filter_congr (q := fun k =>
        decide (k = (b.event_type, b.month, b.location)))]
    · rw [filter_eq_of_nodup (List.nodup_dedup _) _]
      simp [List.mem_dedup]
    · intro k _
      rcases k with ⟨k1, k2, k3⟩
      simp only [decide_eq_decide, Prod.mk.injEq]
      constructor
      · rintro ⟨h1, h2, h3⟩; exact ⟨h2, h1, h3⟩
      · rintro ⟨h1, h2, h3⟩; exact ⟨h2, h1, h3⟩
  unfold groupEvents
  rw [List.filter_map, Function.comp_def]
  simp only [hkeys]
  by_cases hmem : (b.event_type, b.month, b.location) ∈
      (events.map fun e => (e.event_type, e.month, e.location))
  · rw [if_pos hmem]
    have hne : ([(b.event_type, b.month, b.location)].map (fun k =>
        ({ event_type := k.1, month := k.2.1, location := k.2.2,
           n_events := (events.filter (fun e =>
             decide ((e.event_type, e.month, e.location) = k))).length }
          : GroupedEventRow))) ≠ [] := by simp
    rw [if_neg hne]
    have hflt : events.filter (fun e =>
        decide ((e.event_type, e.month, e.location) =
          (b.event_type, b.month, b.location))) =
        events.filter (fun e => decide (e.event_type = b.event_type ∧
          e.month = b.month ∧ e.location = b.location)) := by
      apply List.filter_congr
      intro e _
      simp [Prod.mk.injEq]
    simp only [List.map_cons, List.map_nil, countEvents, hflt]
  · rw [if_neg hmem]
    simp only [List.map_nil, if_pos rfl]
    have hzero : countEvents events b.event_type b.month b.location = 0 := by
      unfold countEvents
      rw [List.length_eq_zero, List.filter_eq_nil_iff]
      intro e he
      simp only [decide_eq_true_eq]
      rintro ⟨h1, h2, h3⟩
      exact hmem (List.mem_map.mpr ⟨e, he, by rw [h1, h2, h3]⟩)
    rw [hzero]
    norm_num

/-! ## The per-city rate table (lines 100-101) -/

/-- Under the one-movement-row-per-grid-cell precondition, the inner
merge with `movements_df` followed by the rate assignment yields
exactly one row per grid row, with that cell's movement count. -/
theorem res1_eq (events : List EventRow) (movements : List MoveRow)
    (blank : List BlankRow)
    (hmov : ∀ b ∈ blank, (movements.filter (fun mv =>
      decide (mv.month = b.month ∧ mv.location = b.location))).length = 1) :
    addEventRate (mergeMovements (mergeLeftEvents blank (groupEvents events))
      movements) =
      blank.map (fun b =>
        gridRateRow events movements b.event_type b.month b.location) := by
  rw [mergeLeftEvents_groupEvents]
  unfold mergeMovements addEventRate
  rw [List.flatMap_map, List.map_flatMap]
  apply flatMap_eq_map_of_singleton
  intro b hb
  obtain ⟨mv, hmv⟩ := List.length_eq_one.mp (hmov b hb)
  simp only [hmv, List.map_cons, List.map_nil]
  unfold gridRateRow movementsAt
  rw [hmv]
  simp

/-! ## Structure of the month list and the blank grid -/

theorem monthsOfYear_nodup (year : Int) : (monthsOfYear year).Nodup := by
  unfold monthsOfYear
  exact List.Nodup.map (fun a b h => by
    simpa [Period.mk.injEq] using h) (List.nodup_range 12)

theorem monthsOfYear_length (year : Int) : (monthsOfYear year).length = 12 := by
  simp [monthsOfYear]

theorem mem_monthsOfYear {year : Int} {p : Period} :
    p ∈ monthsOfYear year ↔ p.year = year ∧ 1 ≤ p.month ∧ p.month ≤ 12 := by
  obtain ⟨py, pm⟩ := p
  unfold monthsOfYear
  simp only [List.mem_map, List.mem_range, Period.mk.injEq]
  constructor
  · rintro ⟨i, hi, h1, h2⟩
    exact ⟨h1.symm, by omega, by omega⟩
  · rintro ⟨rfl, h1, h2⟩
    exact ⟨pm - 1, by omega, rfl, by omega⟩

theorem mem_get_blank_df {ET L : List String} {year : Int} {b : BlankRow} :
    b ∈ get_blank_df ET L year ↔
      b.month ∈ monthsOfYear year ∧ b.event_type ∈ ET ∧ b.location ∈ L := by
  unfold get_blank_df
  simp only [List.mem_flatMap, List.mem_map]
  constructor
  · rintro ⟨loc, hloc, ⟨p, hp, rfl⟩⟩
    obtain ⟨et, het, m, hm, rfl⟩ := hp
    exact ⟨hm, het, hloc⟩
  · rintro ⟨hm, het, hloc⟩
    exact ⟨b.location, hloc, (b.month, b.event_type),
      ⟨b.event_type, het, b.month, hm, rfl⟩, rfl⟩

theorem get_blank_df_nodup {ET L : List String} {year : Int}
    (hET : ET.Nodup) (hL : L.Nodup) : (get_blank_df ET L year).Nodup := by
  unfold get_blank_df
  rw [List.nodup_flatMap]
  constructor
  · intro loc _
    apply List.Nodup.map
    · intro p q h
      simp only [BlankRow.mk.injEq] at h
      exact Prod.ext h.1 h.2.1
    · rw [List.nodup_flatMap]
      constructor
      · intro et _
        apply List.Nodup.map
        · intro a b h
          simpa using (Prod.mk.injEq ..).mp h |>.1
        · exact monthsOfYear_nodup year
      · refine hET.imp ?_
        intro a b hab
        intro x hxa hxb
        simp only [List.mem_map] at hxa hxb
        obtain ⟨m1, _, rfl⟩ := hxa
        obtain ⟨m2, _, h⟩ := hxb
        exact hab ((Prod.mk.injEq ..).mp h |>.2).symm
  · refine hL.imp ?_
    intro a b hab
    intro x hxa hxb
    simp only [List.mem_map] at hxa hxb
    obtain ⟨p1, _, rfl⟩ := hxa
    obtain ⟨p2, _, h⟩ := hxb
    simp only [BlankRow.mk.injEq] at h
    exact hab h.2.2.symm

theorem get_blank_df_length {ET L : List String} {year : Int} :
    (get_blank_df ET L year).length = L.length * (ET.length * 12) := by
  unfold get_blank_df
  have hdf : (ET.flatMap fun et =>
      (monthsOfYear year).map (fun m => (m, et))).length = ET.length * 12 := by
    simp only [List.length_flatMap, Function.comp_def, List.length_map,
      monthsOfYear_length, List.map_const', List.sum_replicate, smul_eq_mul]
  simp only [List.length_flatMap, Function.comp_def, List.length_map, hdf,
    List.map_const', List.sum_replicate, smul_eq_mul]

/-! ## The `'All Cities'` rows (lines 104-109) -/

/-- The `(month, Event_Type)` pair grid underlying `get_blank_df`. -/
def monthTypePairs (ET : List String) (year : Int) : List (Period × String) :=
  ET.flatMap (fun et => (monthsOfYear year).map (fun m => (m, et)))

theorem get_blank_df_eq (ET L : List String) (year : Int) :
    get_blank_df ET L year =
      L.flatMap (fun loc => (monthTypePairs ET year).map
        (fun p => ⟨p.1, p.2, loc⟩)) := rfl

theorem mem_monthTypePairs {ET : List String} {year : Int} {q : Period × String} :
    q ∈ monthTypePairs ET year ↔ q.1 ∈ monthsOfYear year ∧ q.2 ∈ ET := by
  unfold monthTypePairs
  simp only [List.mem_flatMap, List.mem_map]
  constructor
  · rintro ⟨et, het, m, hm, rfl⟩
    exact ⟨hm, het⟩
  · rintro ⟨hm, het⟩
    exact ⟨q.2, het, q.1, hm, by simp⟩

theorem monthTypePairs_nodup {ET : List String} {year : Int} (hET : ET.Nodup) :
    (monthTypePairs ET year).Nodup := by
  unfold monthTypePairs
  rw [List.nodup_flatMap]
  constructor
  · intro et _
    apply List.Nodup.map
    · intro a b h
      simpa using (Prod.mk.injEq ..).mp h |>.1
    · exact monthsOfYear_nodup year
  · refine hET.imp ?_
    intro a b hab x hxa hxb
    simp only [List.mem_map] at hxa hxb
    obtain ⟨m1, _, rfl⟩ := hxa
    obtain ⟨m2, _, h⟩ := hxb
    exact hab ((Prod.mk.injEq ..).mp h |>.2).symm

theorem monthTypePairs_length {ET : List String} {year : Int} :
    (monthTypePairs ET year).length = ET.length * 12 := by
  unfold monthTypePairs
  simp only [List.length_flatMap, Function.comp_def, List.length_map,
    monthsOfYear_length, List.map_const', List.sum_replicate, smul_eq_mul]

/-- Filtering the blank grid for one `(month, event_type)` pair leaves
one row per location. -/
theorem blank_filter_pair {ET L : List String} {year : Int} {m : Period}
    {et : String} (hET : ET.Nodup) (hmem : (m, et) ∈ monthTypePairs ET year) :
    (get_blank_df ET L year).filter
        (fun b => decide ((b.month, b.event_type) = (m, et))) =
      L.map (fun loc => ⟨m, et, loc⟩) := by
  rw [get_blank_df_eq, List.filter_flatMap]
  apply flatMap_eq_map_of_singleton
  intro loc _
  rw [List.filter_map]
  have hcomp : ((fun b => decide ((BlankRow.month b, BlankRow.event_type b) = (m, et))) ∘
      (fun p : Period × String => (⟨p.1, p.2, loc⟩ : BlankRow))) =
      fun p : Period × String => decide (p = (m, et)) := by
    funext p
    obtain ⟨p1, p2⟩ := p
    simp [Prod.mk.injEq]
  rw [hcomp, filter_eq_of_nodup (monthTypePairs_nodup hET) _, if_pos hmem]
  simp

/-- What the pipeline computes for an `'All Cities'` row. -/
def allCitiesRateRow (events : List EventRow) (movements : List MoveRow)
    (L : List String) (m : Period) (et : String) : RateRow :=
  { month := m, event_type := et, location := "All Cities",
    n_events := (L.map (fun loc => (countEvents events et m loc : ℚ))).sum,
    n_movements := (L.map (fun loc => movementsAt movements loc m)).sum,
    event_rate := (L.map (fun loc => (countEvents events et m loc : ℚ))).sum /
      ((L.map (fun loc => movementsAt movements loc m)).sum / 1000) }

/-- The `'All Cities'` block: one row per `(month, event_type)` pair,
whose counts are the sums over the grid locations and whose rate is
recomputed from those sums. -/
theorem allCities_eq (events : List EventRow) (movements : List MoveRow)
    {ET L : List String} {year : Int} (hET : ET.Nodup) (hL : L ≠ []) :
    allCitiesRows ((get_blank_df ET L year).map (fun b =>
        gridRateRow events movements b.event_type b.month b.location)) =
      (monthTypePairs ET year).map (fun k =>
        allCitiesRateRow events movements L k.1 k.2) := by
  have hproj : ((get_blank_df ET L year).map (fun b =>
      gridRateRow events movements b.event_type b.month b.location)).map
        (fun r => (r.month, r.event_type)) =
      L.flatMap (fun _ => monthTypePairs ET year) := by
    rw [List.map_map, get_blank_df_eq, List.map_flatMap]
    congr 1
    funext loc
    rw [List.map_map]
    show (monthTypePairs ET year).map (fun p => (p.1, p.2)) = _
    simp
  simp only [allCitiesRows]
  rw [hproj, dedup_flatMap_const _ hL, (monthTypePairs_nodup hET).dedup,
    List.map_map]
  apply List.map_congr_left
  intro k hk
  obtain ⟨km, ket⟩ := k
  have hgrp : ((get_blank_df ET L year).map (fun b =>
      gridRateRow events movements b.event_type b.month b.location)).filter
        (fun r => decide ((r.month, r.event_type) = (km, ket))) =
      L.map (fun loc => gridRateRow events movements ket km loc) := by
    rw [List.filter_map]
    have hcomp : ((fun r => decide ((RateRow.month r, RateRow.event_type r) =
        (km, ket))) ∘ (fun b : BlankRow =>
          gridRateRow events movements b.event_type b.month b.location)) =
        fun b : BlankRow => decide ((b.month, b.event_type) = (km, ket)) := by
      funext b
      simp [gridRateRow]
    rw [hcomp, blank_filter_pair hET hk, List.map_map]
    rfl
  simp only [hgrp, Function.comp, List.map_map]
  unfold allCitiesRateRow gridRateRow
  simp [Function.comp_def]

/-! ## The `'All Types'` rows (lines 112-120) -/

/-- What `allTypesRows` produces for one `(month, Location)` group
key: summed `n_events` and `event_rate`, and the group's maximum
`n_movements` merged back in. -/
def allTypesRowAt (rows : List RateRow) (k : Period × String) : RateRow :=
  let grp := rows.filter (fun r => decide ((r.month, r.location) = k))
  let grpM := (rows.filter (fun r =>
    decide ((r.location, r.month) = (k.2, k.1)))).map (fun r => r.n_movements)
  { month := k.1, event_type := "All Types", location := k.2,
    n_events := (grp.map (fun r => r.n_events)).sum,
    n_movements := grpM.foldl max (grpM.headD 0),
    event_rate := (grp.map (fun r => r.event_rate)).sum }

/-- The function `allTypesRows` yields exactly one row per distinct
`(month, Location)` key of its input, namely `allTypesRowAt`. -/
theorem allTypesRows_eq (rows : List RateRow) :
    allTypesRows rows =
      ((rows.map (fun r => (r.month, r.location))).dedup).map
        (allTypesRowAt rows) := by
  simp only [allTypesRows, maxMovements]
  rw [List.flatMap_map]
  apply flatMap_eq_map_of_singleton
  intro k hk
  obtain ⟨km, kloc⟩ := k
  rw [List.filter_map]
  have hcomp : ((fun p : String × Period × ℚ =>
      decide (p.1 = kloc ∧ p.2.1 = km)) ∘ (fun k' : String × Period =>
        (k'.1, k'.2, ((rows.filter (fun r =>
          decide ((r.location, r.month) = k'))).map
            (fun r => r.n_movements)).foldl max (((rows.filter (fun r =>
          decide ((r.location, r.month) = k'))).map
            (fun r => r.n_movements)).headD 0)))) =
      fun k' : String × Period => decide (k' = (kloc, km)) := by
    funext k'
    obtain ⟨k1, k2⟩ := k'
    simp [Prod.mk.injEq]
  rw [hcomp, filter_eq_of_nodup (List.nodup_dedup _) _]
  have hmem : (kloc, km) ∈ (rows.map (fun r => (r.location, r.month))).dedup := by
    rw [List.mem_dedup]
    rw [List.mem_dedup] at hk
    obtain ⟨r, hr, hrk⟩ := List.mem_map.mp hk
    exact List.mem_map.mpr ⟨r, hr, by
      obtain ⟨h1, h2⟩ := (Prod.mk.injEq ..).mp hrk
      simp [h1, h2]⟩
  rw [if_pos hmem]
  simp only [List.map_cons, List.map_nil]
  rfl

/-! ## The fully characterised combined table -/

/-- The per-city block of the combined table (lines 93-101), in its
proved explicit form. -/
def modelRes1 (events : List EventRow) (movements : List MoveRow)
    (ET L : List String) (year : Int) : List RateRow :=
  (get_blank_df ET L year).map (fun b =>
    gridRateRow events movements b.event_type b.month b.location)

/-- The per-city block together with the `'All Cities'` block
(lines 93-109), in explicit form. -/
def modelRes2 (events : List EventRow) (movements : List MoveRow)
    (ET L : List String) (year : Int) : List RateRow :=
  modelRes1 events movements ET L year ++
    (monthTypePairs ET year).map (fun k =>
      allCitiesRateRow events movements L k.1 k.2)

/-- The movement-data precondition: exactly one movement row per
(location, month) cell of the target year's grid. -/
def oneMovementPerCell (movements : List MoveRow) (L : List String)
    (year : Int) : Prop :=
  ∀ loc ∈ L, ∀ m ∈ monthsOfYear year,
    (movements.filter (fun mv =>
      decide (mv.month = m ∧ mv.location = loc))).length = 1

/-- Master characterisation: under the grid and movement
preconditions, the unsorted combined table is the `'All Types'` block
followed by the per-city block and the `'All Cities'` block. -/
theorem combinedUnsorted_eq (events : List EventRow) (movements : List MoveRow)
    {ET L : List String} {year : Int} (hET : ET.Nodup) (hL : L ≠ [])
    (hmov : oneMovementPerCell movements L year) :
    combinedUnsorted movements events (get_blank_df ET L year) =
      allTypesRows (modelRes2 events movements ET L year) ++
        modelRes2 events movements ET L year := by
  have hres1 : addEventRate (mergeMovements
      (mergeLeftEvents (get_blank_df ET L year) (groupEvents events))
        movements) = modelRes1 events movements ET L year := by
    apply res1_eq
    intro b hb
    rw [mem_get_blank_df] at hb
    exact hmov b.location hb.2.2 b.month hb.1
  show allTypesRows _ ++ _ = _
  rw [hres1]
  unfold modelRes1
  rw [allCities_eq events movements hET hL]
  rfl

/-- Every row of the per-city block is a grid row. -/
theorem mem_modelRes1 {events : List EventRow} {movements : List MoveRow}
    {ET L : List String} {year : Int} {r : RateRow} :
    r ∈ modelRes1 events movements ET L year ↔
      r.month ∈ monthsOfYear year ∧ r.event_type ∈ ET ∧ r.location ∈ L ∧
      r = gridRateRow events movements r.event_type r.month r.location := by
  unfold modelRes1
  rw [List.mem_map]
  constructor
  · rintro ⟨b, hb, rfl⟩
    rw [mem_get_blank_df] at hb
    exact ⟨hb.1, hb.2.1, hb.2.2, rfl⟩
  · rintro ⟨hm, het, hloc, hr⟩
    exact ⟨⟨r.month, r.event_type, r.location⟩,
      mem_get_blank_df.mpr ⟨hm, het, hloc⟩, hr.symm⟩

/-- Every row of the `'All Cities'` block is an aggregate row. -/
theorem mem_modelAllCities {events : List EventRow} {movements : List MoveRow}
    {ET L : List String} {year : Int} {r : RateRow} :
    r ∈ (monthTypePairs ET year).map (fun k =>
        allCitiesRateRow events movements L k.1 k.2) ↔
      r.month ∈ monthsOfYear year ∧ r.event_type ∈ ET ∧
      r = allCitiesRateRow events movements L r.month r.event_type := by
  rw [List.mem_map]
  constructor
  · rintro ⟨k, hk, rfl⟩
    rw [mem_monthTypePairs] at hk
    exact ⟨hk.1, hk.2, rfl⟩
  · rintro ⟨hm, het, hr⟩
    exact ⟨(r.month, r.event_type),
      mem_monthTypePairs.mpr ⟨hm, het⟩, hr.symm⟩

/-! ## Filtering the blocks at a key -/

/-- A `flatMap` whose fibres are empty except at one index of a
duplicate-free list yields that fibre. -/
theorem flatMap_ite_eq {α β : Type*} [DecidableEq α] {l : List α} {a : α}
    (hl : l.Nodup) (ha : a ∈ l) (X : List β) :
    (l.flatMap (fun x => if x = a then X else [])) = X := by
  induction l with
  | nil => cases ha
  | cons y ys ih =>
    rw [List.nodup_cons] at hl
    rw [List.flatMap_cons]
    by_cases hya : y = a
    · subst hya
      have : ys.flatMap (fun x => if x = y then X else []) = [] := by
        rw [List.flatMap_eq_nil_iff]
        intro x hx
        rw [if_neg (show ¬(x = y) from fun hxy => hl.1 (hxy ▸ hx))]
      simp [this]
    · rcases List.mem_cons.mp ha with h | h
      · exact absurd h.symm hya
      · simp [hya, ih hl.2 h]

theorem monthTypePairs_filter_month {ET : List String} {year : Int}
    {m0 : Period} (hm : m0 ∈ monthsOfYear year) :
    (monthTypePairs ET year).filter (fun p => decide (p.1 = m0)) =
      ET.map (fun et => (m0, et)) := by
  unfold monthTypePairs
  rw [List.filter_flatMap]
  apply flatMap_eq_map_of_singleton
  intro et _
  rw [List.filter_map]
  have hcomp : ((fun p : Period × String => decide (p.1 = m0)) ∘
      (fun m => (m, et))) = fun m : Period => decide (m = m0) := by
    funext m
    simp
  rw [hcomp, filter_eq_of_nodup (monthsOfYear_nodup year) _, if_pos hm]
  simp

/-- Filtering the blank grid for a real `(month, location)` cell
leaves one row per event type. -/
theorem blank_filter_monthLoc {ET L : List String} {year : Int}
    {m0 : Period} {loc0 : String} (hL : L.Nodup)
    (hm : m0 ∈ monthsOfYear year) (hloc : loc0 ∈ L) :
    (get_blank_df ET L year).filter (fun b : BlankRow =>
        decide ((b.month, b.location) = (m0, loc0))) =
      ET.map (fun et => (⟨m0, et, loc0⟩ : BlankRow)) := by
  rw [get_blank_df_eq, List.filter_flatMap]
  have hfib : ∀ loc, (((monthTypePairs ET year).map (fun p =>
      (⟨p.1, p.2, loc⟩ : BlankRow))).filter (fun b : BlankRow =>
        decide ((b.month, b.location) = (m0, loc0)))) =
      if loc = loc0 then ET.map (fun et => (⟨m0, et, loc0⟩ : BlankRow))
      else [] := by
    intro loc
    rw [List.filter_map]
    by_cases hll : loc = loc0
    · subst hll
      rw [if_pos rfl]
      have hcomp : (((fun b : BlankRow =>
          decide ((b.month, b.location) = (m0, loc))) ∘ (fun p : Period × String =>
            (⟨p.1, p.2, loc⟩ : BlankRow)))) = fun p : Period × String =>
              decide (p.1 = m0) := by
        funext p
        simp [Prod.mk.injEq]
      rw [hcomp, monthTypePairs_filter_month hm, List.map_map]
      rfl
    · rw [if_neg hll]
      have : ((monthTypePairs ET year).filter ((fun b : BlankRow =>
          decide ((b.month, b.location) = (m0, loc0))) ∘ (fun p : Period × String =>
            (⟨p.1, p.2, loc⟩ : BlankRow)))) = [] := by
        rw [List.filter_eq_nil_iff]
        intro p _
        simp [Prod.mk.injEq, hll]
      rw [this, List.map_nil]
  calc (L.flatMap fun loc => (((monthTypePairs ET year).map (fun p =>
        (⟨p.1, p.2, loc⟩ : BlankRow))).filter (fun b : BlankRow =>
          decide ((b.month, b.location) = (m0, loc0)))))
      = L.flatMap (fun loc => if loc = loc0 then
          ET.map (fun et => (⟨m0, et, loc0⟩ : BlankRow)) else []) := by
        congr 1
        funext loc
        exact hfib loc
    _ = ET.map (fun et => (⟨m0, et, loc0⟩ : BlankRow)) :=
        flatMap_ite_eq hL hloc _

/-- Filtering the per-city block for a real `(month, location)` cell
leaves one row per event type. -/
theorem modelRes1_filter_monthLoc {events : List EventRow}
    {movements : List MoveRow} {ET L : List String} {year : Int}
    {m0 : Period} {loc0 : String} (hL : L.Nodup)
    (hm : m0 ∈ monthsOfYear year) (hloc : loc0 ∈ L) :
    (modelRes1 events movements ET L year).filter (fun r =>
        decide ((r.month, r.location) = (m0, loc0))) =
      ET.map (fun et => gridRateRow events movements et m0 loc0) := by
  unfold modelRes1
  rw [List.filter_map]
  have hcomp : ((fun r : RateRow => decide ((r.month, r.location) = (m0, loc0))) ∘
      (fun b : BlankRow =>
        gridRateRow events movements b.event_type b.month b.location)) =
      fun b : BlankRow => decide ((b.month, b.location) = (m0, loc0)) := by
    funext b
    simp [gridRateRow]
  rw [hcomp, blank_filter_monthLoc hL hm hloc, List.map_map]
  rfl

/-- A location absent from the grid does not occur in the per-city
block. -/
theorem modelRes1_filter_notLoc {events : List EventRow}
    {movements : List MoveRow} {ET L : List String} {year : Int}
    {loc0 : String} (hloc : loc0 ∉ L) :
    (modelRes1 events movements ET L year).filter (fun r =>
        decide (r.location = loc0)) = [] := by
  rw [List.filter_eq_nil_iff]
  intro r hr
  obtain ⟨hm, het, hl, _⟩ := mem_modelRes1.mp hr
  simp only [decide_eq_true_eq]
  intro h
  exact hloc (h ▸ hl)

/-- Filtering the `'All Cities'` block for a month leaves one row per
event type. -/
theorem modelAllCities_filter_month {events : List EventRow}
    {movements : List MoveRow} {ET L : List String} {year : Int}
    {m0 : Period} (hm : m0 ∈ monthsOfYear year) :
    ((monthTypePairs ET year).map (fun k =>
        allCitiesRateRow events movements L k.1 k.2)).filter (fun r =>
        decide (r.month = m0)) =
      ET.map (fun et => allCitiesRateRow events movements L m0 et) := by
  rw [List.filter_map]
  have hcomp : ((fun r : RateRow => decide (r.month = m0)) ∘
      (fun k : Period × String =>
        allCitiesRateRow events movements L k.1 k.2)) =
      fun k : Period × String => decide (k.1 = m0) := by
    funext k
    simp [allCitiesRateRow]
  rw [hcomp, monthTypePairs_filter_month hm, List.map_map]
  rfl

/-- Filtering the combined (pre-`'All Types'`) table for a real
`(month, location)` cell leaves one row per event type. -/
theorem modelRes2_filter_real {events : List EventRow}
    {movements : List MoveRow} {ET L : List String} {year : Int}
    {m0 : Period} {loc0 : String} (hL : L.Nodup)
    (hm : m0 ∈ monthsOfYear year) (hloc : loc0 ∈ L) (hAC : "All Cities" ∉ L) :
    (modelRes2 events movements ET L year).filter (fun r =>
        decide ((r.month, r.location) = (m0, loc0))) =
      ET.map (fun et => gridRateRow events movements et m0 loc0) := by
  unfold modelRes2
  rw [List.filter_append, modelRes1_filter_monthLoc hL hm hloc]
  have hACnil : ((monthTypePairs ET year).map (fun k =>
      allCitiesRateRow events movements L k.1 k.2)).filter (fun r =>
        decide ((r.month, r.location) = (m0, loc0))) = [] := by
    rw [List.filter_eq_nil_iff]
    intro r hr
    obtain ⟨_, _, hreq⟩ := mem_modelAllCities.mp hr
    simp only [decide_eq_true_eq, Prod.mk.injEq]
    rintro ⟨_, hlocEq⟩
    rw [hreq] at hlocEq
    have hAllEq : "All Cities" = loc0 := hlocEq
    exact hAC (hAllEq ▸ hloc)
  rw [hACnil, List.append_nil]

/-- Filtering the combined (pre-`'All Types'`) table for an
`(month, 'All Cities')` cell leaves one aggregate row per event
type. -/
theorem modelRes2_filter_all {events : List EventRow}
    {movements : List MoveRow} {ET L : List String} {year : Int}
    {m0 : Period} (hm : m0 ∈ monthsOfYear year) (hAC : "All Cities" ∉ L) :
    (modelRes2 events movements ET L year).filter (fun r =>
        decide ((r.month, r.location) = (m0, "All Cities"))) =
      ET.map (fun et => allCitiesRateRow events movements L m0 et) := by
  unfold modelRes2
  rw [List.filter_append]
  have h1 : (modelRes1 events movements ET L year).filter (fun r =>
      decide ((r.month, r.location) = (m0, "All Cities"))) = [] := by
    rw [List.filter_eq_nil_iff]
    intro r hr
    obtain ⟨_, _, hlocL, _⟩ := mem_modelRes1.mp hr
    simp only [decide_eq_true_eq, Prod.mk.injEq]
    rintro ⟨_, hlocEq⟩
    exact hAC (hlocEq ▸ hlocL)
  have h2 : ((monthTypePairs ET year).map (fun k =>
      allCitiesRateRow events movements L k.1 k.2)).filter (fun r =>
        decide ((r.month, r.location) = (m0, "All Cities"))) =
      ((monthTypePairs ET year).map (fun k =>
        allCitiesRateRow events movements L k.1 k.2)).filter (fun r =>
          decide (r.month = m0)) := by
    apply List.filter_congr
    intro r hr
    obtain ⟨_, _, hreq⟩ := mem_modelAllCities.mp hr
    have hlocAll : r.location = "All Cities" := by rw [hreq]; rfl
    simp [Prod.mk.injEq, hlocAll]
  rw [h1, h2, modelAllCities_filter_month hm, List.nil_append]

/-- The distinct `(month, Location)` keys of the combined table are
the target year's months paired with the grid locations plus
`'All Cities'`. -/
theorem modelRes2_pairs_mem {events : List EventRow}
    {movements : List MoveRow} {ET L : List String} {year : Int}
    (hETne : ET ≠ []) {q : Period × String} :
    q ∈ (modelRes2 events movements ET L year).map
        (fun r => (r.month, r.location)) ↔
      q.1 ∈ monthsOfYear year ∧ (q.2 ∈ L ∨ q.2 = "All Cities") := by
  obtain ⟨et0, het0⟩ := List.exists_mem_of_ne_nil ET hETne
  unfold modelRes2
  rw [List.map_append, List.mem_append]
  constructor
  · rintro (h | h)
    · obtain ⟨r, hr, rfl⟩ := List.mem_map.mp h
      obtain ⟨hm, _, hloc, _⟩ := mem_modelRes1.mp hr
      exact ⟨hm, Or.inl hloc⟩
    · obtain ⟨r, hr, rfl⟩ := List.mem_map.mp h
      obtain ⟨hm, _, hreq⟩ := mem_modelAllCities.mp hr
      exact ⟨hm, Or.inr (by rw [hreq]; rfl)⟩
  · rintro ⟨hm, hloc | hAll⟩
    · left
      refine List.mem_map.mpr ⟨gridRateRow events movements et0 q.1 q.2, ?_, rfl⟩
      exact mem_modelRes1.mpr ⟨hm, het0, hloc, rfl⟩
    · right
      refine List.mem_map.mpr
        ⟨allCitiesRateRow events movements L q.1 et0, ?_, ?_⟩
      · exact mem_modelAllCities.mpr ⟨hm, het0, rfl⟩
      · obtain ⟨q1, q2⟩ := q
        simp only at hAll
        rw [hAll]
        rfl

/-- What the pipeline computes for the `'All Types'` row of a real
location: summed counts over the event types, the location's own
movement count, and the summed per-type rates (which collapse to the
recomputed ratio because every per-type row shares the same
denominator). -/
def allTypesRealRow (events : List EventRow) (movements : List MoveRow)
    (ET : List String) (m0 : Period) (loc0 : String) : RateRow :=
  { month := m0, event_type := "All Types", location := loc0,
    n_events := (ET.map (fun et => (countEvents events et m0 loc0 : ℚ))).sum,
    n_movements := movementsAt movements loc0 m0,
    event_rate := (ET.map (fun et => (countEvents events et m0 loc0 : ℚ))).sum /
      (movementsAt movements loc0 m0 / 1000) }

/-- What the pipeline computes for the `(month, 'All Cities')`
`'All Types'` row. -/
def allTypesAllRow (events : List EventRow) (movements : List MoveRow)
    (ET L : List String) (m0 : Period) : RateRow :=
  { month := m0, event_type := "All Types", location := "All Cities",
    n_events := (ET.map (fun et =>
      (L.map (fun loc => (countEvents events et m0 loc : ℚ))).sum)).sum,
    n_movements := (L.map (fun loc => movementsAt movements loc m0)).sum,
    event_rate := (ET.map (fun et =>
      (L.map (fun loc => (countEvents events et m0 loc : ℚ))).sum)).sum /
      ((L.map (fun loc => movementsAt movements loc m0)).sum / 1000) }

theorem allTypesRowAt_real {events : List EventRow} {movements : List MoveRow}
    {ET L : List String} {year : Int} {m0 : Period} {loc0 : String}
    (hL : L.Nodup) (hETne : ET ≠ []) (hm : m0 ∈ monthsOfYear year)
    (hloc : loc0 ∈ L) (hAC : "All Cities" ∉ L) :
    allTypesRowAt (modelRes2 events movements ET L year) (m0, loc0) =
      allTypesRealRow events movements ET m0 loc0 := by
  have hgrp := @modelRes2_filter_real events movements ET L year m0 loc0
    hL hm hloc hAC
  have hgrpM : (modelRes2 events movements ET L year).filter (fun r =>
      decide ((r.location, r.month) = (loc0, m0))) =
      ET.map (fun et => gridRateRow events movements et m0 loc0) := by
    rw [← hgrp]
    apply List.filter_congr
    intro r _
    simp only [decide_eq_decide, Prod.mk.injEq]
    constructor
    · rintro ⟨h1, h2⟩; exact ⟨h2, h1⟩
    · rintro ⟨h1, h2⟩; exact ⟨h2, h1⟩
  have hMconst : ∀ x ∈ (ET.map (fun et =>
      gridRateRow events movements et m0 loc0)).map (fun r => r.n_movements),
      x = movementsAt movements loc0 m0 := by
    intro x hx
    rw [List.map_map] at hx
    obtain ⟨et, _, rfl⟩ := List.mem_map.mp hx
    rfl
  have hMne : (ET.map (fun et =>
      gridRateRow events movements et m0 loc0)).map
        (fun r => r.n_movements) ≠ [] := by
    simp [hETne]
  unfold allTypesRowAt allTypesRealRow
  simp only [hgrp, hgrpM, RateRow.mk.injEq, true_and]
  refine ⟨?_, ?_, ?_⟩
  · rw [List.map_map]
    rfl
  · exact foldl_max_const hMconst hMne
  · rw [List.map_map]
    have hfn : ((fun r : RateRow => r.event_rate) ∘ fun et =>
        gridRateRow events movements et m0 loc0) = fun et =>
          (countEvents events et m0 loc0 : ℚ) /
            (movementsAt movements loc0 m0 / 1000) := rfl
    rw [hfn, sum_map_div]

theorem allTypesRowAt_all {events : List EventRow} {movements : List MoveRow}
    {ET L : List String} {year : Int} {m0 : Period}
    (hETne : ET ≠ []) (hm : m0 ∈ monthsOfYear year) (hAC : "All Cities" ∉ L) :
    allTypesRowAt (modelRes2 events movements ET L year) (m0, "All Cities") =
      allTypesAllRow events movements ET L m0 := by
  have hgrp := @modelRes2_filter_all events movements ET L year m0 hm hAC
  have hgrpM : (modelRes2 events movements ET L year).filter (fun r =>
      decide ((r.location, r.month) = ("All Cities", m0))) =
      ET.map (fun et => allCitiesRateRow events movements L m0 et) := by
    rw [← hgrp]
    apply List.filter_congr
    intro r _
    simp only [decide_eq_decide, Prod.mk.injEq]
    constructor
    · rintro ⟨h1, h2⟩; exact ⟨h2, h1⟩
    · rintro ⟨h1, h2⟩; exact ⟨h2, h1⟩
  have hMconst : ∀ x ∈ (ET.map (fun et =>
      allCitiesRateRow events movements L m0 et)).map (fun r => r.n_movements),
      x = (L.map (fun loc => movementsAt movements loc m0)).sum := by
    intro x hx
    rw [List.map_map] at hx
    obtain ⟨et, _, rfl⟩ := List.mem_map.mp hx
    rfl
  have hMne : (ET.map (fun et =>
      allCitiesRateRow events movements L m0 et)).map
        (fun r => r.n_movements) ≠ [] := by
    simp [hETne]
  unfold allTypesRowAt allTypesAllRow
  simp only [hgrp, hgrpM, RateRow.mk.injEq, true_and]
  refine ⟨?_, ?_, ?_⟩
  · rw [List.map_map]
    rfl
  · exact foldl_max_const hMconst hMne
  · rw [List.map_map]
    have hfn : ((fun r : RateRow => r.event_rate) ∘ fun et =>
        allCitiesRateRow events movements L m0 et) = fun et =>
          (L.map (fun loc => (countEvents events et m0 loc : ℚ))).sum /
            ((L.map (fun loc => movementsAt movements loc m0)).sum / 1000) := rfl
    rw [hfn, sum_map_div]

/-! ## Months of the combined rows, and month names -/

theorem allTypesRows_eventType {rows : List RateRow} {r : RateRow}
    (hr : r ∈ allTypesRows rows) : r.event_type = "All Types" := by
  rw [allTypesRows_eq] at hr
  obtain ⟨k, _, rfl⟩ := List.mem_map.mp hr
  rfl

theorem mem_allTypesBlock {events : List EventRow} {movements : List MoveRow}
    {ET L : List String} {year : Int} {r : RateRow} (hETne : ET ≠ [])
    (hr : r ∈ allTypesRows (modelRes2 events movements ET L year)) :
    r.event_type = "All Types" ∧ r.month ∈ monthsOfYear year ∧
    (r.location ∈ L ∨ r.location = "All Cities") ∧
    r = allTypesRowAt (modelRes2 events movements ET L year)
      (r.month, r.location) := by
  rw [allTypesRows_eq] at hr
  obtain ⟨k, hk, rfl⟩ := List.mem_map.mp hr
  rw [List.mem_dedup] at hk
  have hq := (modelRes2_pairs_mem hETne).mp hk
  obtain ⟨k1, k2⟩ := k
  exact ⟨rfl, hq.1, hq.2, rfl⟩

theorem combined_row_month {events : List EventRow} {movements : List MoveRow}
    {ET L : List String} {year : Int} {r : RateRow}
    (hr : r ∈ allTypesRows (modelRes2 events movements ET L year) ++
      modelRes2 events movements ET L year) :
    r.month ∈ monthsOfYear year := by
  rcases List.mem_append.mp hr with h | h
  · rw [allTypesRows_eq] at h
    obtain ⟨k, hk, rfl⟩ := List.mem_map.mp h
    rw [List.mem_dedup] at hk
    obtain ⟨r', hr', hkr⟩ := List.mem_map.mp hk
    have hm : r'.month ∈ monthsOfYear year := by
      rcases List.mem_append.mp hr' with h' | h'
      · exact (mem_modelRes1.mp h').1
      · exact (mem_modelAllCities.mp h').1
    have : (allTypesRowAt (modelRes2 events movements ET L year) k).month =
        k.1 := by
      obtain ⟨k1, k2⟩ := k
      rfl
    rw [this, ← hkr]
    exact hm
  · rcases List.mem_append.mp h with h' | h'
    · exact (mem_modelRes1.mp h').1
    · exact (mem_modelAllCities.mp h').1

theorem monthName_inj_range : ∀ i ∈ List.range 12, ∀ j ∈ List.range 12,
    monthName (i + 1) = monthName (j + 1) → i = j := by decide

theorem monthName_eq_iff {year : Int} {p q : Period}
    (hp : p ∈ monthsOfYear year) (hq : q ∈ monthsOfYear year) :
    monthName p.month = monthName q.month ↔ p = q := by
  constructor
  · intro h
    rw [mem_monthsOfYear] at hp hq
    obtain ⟨hpy, hp1, hp2⟩ := hp
    obtain ⟨hqy, hq1, hq2⟩ := hq
    have hin : p.month - 1 ∈ List.range 12 := by rw [List.mem_range]; omega
    have hjn : q.month - 1 ∈ List.range 12 := by rw [List.mem_range]; omega
    have heq : monthName (p.month - 1 + 1) = monthName (q.month - 1 + 1) := by
      rw [show p.month - 1 + 1 = p.month by omega,
        show q.month - 1 + 1 = q.month by omega]
      exact h
    have hmm := monthName_inj_range _ hin _ hjn heq
    obtain ⟨py, pm⟩ := p
    obtain ⟨qy, qm⟩ := q
    simp only at hpy hqy hmm hp1 hq1
    rw [Period.mk.injEq]
    constructor
    · rw [hpy, hqy]
    · omega
  · intro h
    rw [h]

/-! ## The final conversion layer -/

/-- Lines 124-125: one final row from one combined row. -/
def toFinalRow (r : RateRow) : FinalRow :=
  { month := monthName r.month.month, event_type := r.event_type,
    location := r.location, n_events := r.n_events,
    n_movements := r.n_movements, event_rate := r.event_rate }

theorem get_combined_df_eq_map (movements_df : List MoveRow)
    (events_df : List EventRow) (blank_df : List BlankRow) :
    get_combined_df movements_df events_df blank_df =
      (sortByMonth (combinedUnsorted movements_df events_df blank_df)).map
        toFinalRow := rfl

theorem sortByMonth_perm (rows : List RateRow) : List.Perm (sortByMonth rows) rows :=
  List.perm_insertionSort _ rows

/-- Memberships in the final table are memberships in the combined
blocks. -/
theorem mem_output {events : List EventRow} {movements : List MoveRow}
    {ET L : List String} {year : Int} (hET : ET.Nodup) (hL : L ≠ [])
    (hmov : oneMovementPerCell movements L year) {r : FinalRow} :
    r ∈ get_combined_df movements events (get_blank_df ET L year) ↔
      ∃ r0 ∈ allTypesRows (modelRes2 events movements ET L year) ++
        modelRes2 events movements ET L year, r = toFinalRow r0 := by
  rw [get_combined_df_eq_map, List.mem_map]
  constructor
  · rintro ⟨r0, hr0, rfl⟩
    refine ⟨r0, ?_, rfl⟩
    rw [← combinedUnsorted_eq events movements hET hL hmov]
    exact (sortByMonth_perm _).mem_iff.mp hr0
  · rintro ⟨r0, hr0, rfl⟩
    refine ⟨r0, ?_, rfl⟩
    rw [← combinedUnsorted_eq events movements hET hL hmov] at hr0
    exact (sortByMonth_perm _).mem_iff.mpr hr0

/-! ## Counting rows per key -/

theorem countP_modelRes1_key {events : List EventRow} {movements : List MoveRow}
    {ET L : List String} {year : Int} (hETnd : ET.Nodup) (hLnd : L.Nodup)
    (m : Period) (et loc : String) :
    (modelRes1 events movements ET L year).countP (fun r =>
      decide (r.month = m ∧ r.event_type = et ∧ r.location = loc)) =
    if m ∈ monthsOfYear year ∧ et ∈ ET ∧ loc ∈ L then 1 else 0 := by
  unfold modelRes1
  rw [List.countP_map]
  rw [List.countP_congr (q := fun b : BlankRow =>
      decide (b = (⟨m, et, loc⟩ : BlankRow)))]
  · rw [List.countP_eq_length_filter,
      filter_eq_of_nodup (get_blank_df_nodup hETnd hLnd) _]
    by_cases hmem : (⟨m, et, loc⟩ : BlankRow) ∈ get_blank_df ET L year
    · rw [if_pos hmem, if_pos (mem_get_blank_df.mp hmem)]
      rfl
    · rw [if_neg hmem, if_neg (fun hc => hmem (mem_get_blank_df.mpr hc))]
      rfl
  · intro b _
    obtain ⟨bm, be, bl⟩ := b
    simp [Function.comp, gridRateRow, BlankRow.mk.injEq]

theorem countP_modelAllCities_key {events : List EventRow}
    {movements : List MoveRow} {ET L : List String} {year : Int}
    (hETnd : ET.Nodup) (m : Period) (et loc : String) :
    ((monthTypePairs ET year).map (fun k =>
      allCitiesRateRow events movements L k.1 k.2)).countP (fun r =>
        decide (r.month = m ∧ r.event_type = et ∧ r.location = loc)) =
    if m ∈ monthsOfYear year ∧ et ∈ ET ∧ loc = "All Cities" then 1 else 0 := by
  rw [List.countP_map]
  by_cases hAll : loc = "All Cities"
  · subst hAll
    rw [List.countP_congr (q := fun k : Period × String =>
        decide (k = (m, et)))]
    · rw [List.countP_eq_length_filter,
        filter_eq_of_nodup (monthTypePairs_nodup hETnd) _]
      by_cases hmem : ((m, et) : Period × String) ∈ monthTypePairs ET year
      · rw [if_pos hmem]
        have := mem_monthTypePairs.mp hmem
        rw [if_pos ⟨this.1, this.2, rfl⟩]
        rfl
      · rw [if_neg hmem]
        rw [if_neg (fun hc => hmem (mem_monthTypePairs.mpr ⟨hc.1, hc.2.1⟩))]
        rfl
    · intro k _
      obtain ⟨k1, k2⟩ := k
      simp [Function.comp, allCitiesRateRow, Prod.mk.injEq]
  · rw [List.countP_eq_zero.mpr, if_neg (fun hc => hAll hc.2.2)]
    intro k _
    simp only [Function.comp, decide_eq_true_eq]
    rintro ⟨_, _, hlo⟩
    exact hAll (by rw [← hlo]; rfl)

theorem countP_allTypes_key {events : List EventRow} {movements : List MoveRow}
    {ET L : List String} {year : Int} (hETne : ET ≠ [])
    (m : Period) (et loc : String) :
    (allTypesRows (modelRes2 events movements ET L year)).countP (fun r =>
      decide (r.month = m ∧ r.event_type = et ∧ r.location = loc)) =
    if m ∈ monthsOfYear year ∧ et = "All Types" ∧
        (loc ∈ L ∨ loc = "All Cities") then 1 else 0 := by
  rw [allTypesRows_eq, List.countP_map]
  by_cases hAT : et = "All Types"
  · subst hAT
    rw [List.countP_congr (q := fun k : Period × String =>
        decide (k = (m, loc)))]
    · rw [List.countP_eq_length_filter,
        filter_eq_of_nodup (List.nodup_dedup _) _]
      by_cases hmem : ((m, loc) : Period × String) ∈
          ((modelRes2 events movements ET L year).map
            (fun r => (r.month, r.location))).dedup
      · rw [if_pos hmem]
        have := (modelRes2_pairs_mem hETne).mp (List.mem_dedup.mp hmem)
        rw [if_pos ⟨this.1, rfl, this.2⟩]
        rfl
      · rw [if_neg hmem]
        rw [if_neg (fun hc => hmem (List.mem_dedup.mpr
          ((modelRes2_pairs_mem hETne).mpr ⟨hc.1, hc.2.2⟩)))]
        rfl
    · intro k _
      obtain ⟨k1, k2⟩ := k
      simp [Function.comp, allTypesRowAt, Prod.mk.injEq]
  · rw [List.countP_eq_zero.mpr, if_neg (fun hc => hAT hc.2.1)]
    intro k hk
    obtain ⟨k1, k2⟩ := k
    simp only [Function.comp, decide_eq_true_eq]
    rintro ⟨_, hty, _⟩
    exact hAT (by rw [← hty]; rfl)

theorem allTypesBlock_length {events : List EventRow} {movements : List MoveRow}
    {ET L : List String} {year : Int} (hETne : ET ≠ []) (hLnd : L.Nodup)
    (hAC : "All Cities" ∉ L) :
    (allTypesRows (modelRes2 events movements ET L year)).length =
      12 * (L.length + 1) := by
  rw [allTypesRows_eq, List.length_map, ← List.card_toFinset]
  have hset : ((modelRes2 events movements ET L year).map
      (fun r => (r.month, r.location))).toFinset =
      (monthsOfYear year).toFinset ×ˢ insert "All Cities" L.toFinset := by
    ext q
    obtain ⟨q1, q2⟩ := q
    rw [List.mem_toFinset, modelRes2_pairs_mem hETne, Finset.mem_product,
      Finset.mem_insert, List.mem_toFinset, List.mem_toFinset]
    tauto
  rw [hset, Finset.card_product,
    Finset.card_insert_of_not_mem (fun hc => hAC (List.mem_toFinset.mp hc)),
    List.toFinset_card_of_nodup (monthsOfYear_nodup year),
    List.toFinset_card_of_nodup hLnd, monthsOfYear_length]

/-- How many final-table rows carry a given `(month, type, location)`
key: one per block whose key condition holds. -/
theorem output_countP_key (events : List EventRow) (movements : List MoveRow)
    {ET L : List String} {year : Int}
    (hETnd : ET.Nodup) (hLnd : L.Nodup) (hETne : ET ≠ []) (hLne : L ≠ [])
    (hmov : oneMovementPerCell movements L year)
    {m : Period} (hm : m ∈ monthsOfYear year) (et loc : String) :
    ((get_combined_df movements events (get_blank_df ET L year)).filter
      (fun r => decide (r.month = monthName m.month ∧ r.event_type = et ∧
        r.location = loc))).length =
    (if m ∈ monthsOfYear year ∧ et = "All Types" ∧
        (loc ∈ L ∨ loc = "All Cities") then 1 else 0) +
    ((if m ∈ monthsOfYear year ∧ et ∈ ET ∧ loc ∈ L then 1 else 0) +
     (if m ∈ monthsOfYear year ∧ et ∈ ET ∧ loc = "All Cities" then 1 else 0)) := by
  rw [get_combined_df_eq_map, ← List.countP_eq_length_filter,
    List.countP_map, (sortByMonth_perm _).countP_eq,
    combinedUnsorted_eq events movements hETnd hLne hmov]
  rw [List.countP_congr (q := fun r : RateRow =>
      decide (r.month = m ∧ r.event_type = et ∧ r.location = loc))
    (fun r hr => by
      have hrm := combined_row_month hr
      simp only [Function.comp, toFinalRow, decide_eq_true_eq]
      rw [monthName_eq_iff hrm hm])]
  rw [List.countP_append, countP_allTypes_key hETne]
  unfold modelRes2
  rw [List.countP_append, countP_modelRes1_key hETnd hLnd,
    countP_modelAllCities_key hETnd]

/-- C1: after `get_blank_df` and `get_combined_df` run on
year-filtered data, the output has exactly one row for every
(month, event type ∪ `'All Types'`, location ∪ `'All Cities'`) key of
the target year — no duplicates, no gaps — and hence exactly
`12 × (|event_types| + 1) × (|locations| + 1)` rows, provided the
movement data has exactly one row per (location, month) cell. -/
theorem C1_grid_complete (events : List EventRow) (movements : List MoveRow)
    (ET L : List String) (year : Int)
    (hETnd : ET.Nodup) (hLnd : L.Nodup) (hETne : ET ≠ []) (hLne : L ≠ [])
    (hAT : "All Types" ∉ ET) (hAC : "All Cities" ∉ L)
    (hmov : oneMovementPerCell movements L year) :
    (∀ m ∈ monthsOfYear year, ∀ et ∈ ("All Types" :: ET),
      ∀ loc ∈ ("All Cities" :: L),
      ((get_combined_df movements events (get_blank_df ET L year)).filter
        (fun r => decide (r.month = monthName m.month ∧ r.event_type = et ∧
          r.location = loc))).length = 1) ∧
    (get_combined_df movements events (get_blank_df ET L year)).length =
      12 * (ET.length + 1) * (L.length + 1) := by
  constructor
  · intro m hm et het loc hloc
    rw [output_countP_key events movements hETnd hLnd hETne hLne hmov hm et loc]
    rcases List.mem_cons.mp het with rfl | hetET
    · rw [if_pos ⟨hm, rfl, by
        rcases List.mem_cons.mp hloc with rfl | h
        · exact Or.inr rfl
        · exact Or.inl h⟩]
      rw [if_neg (fun hc => hAT hc.2.1), if_neg (fun hc => hAT hc.2.1)]
    · have hetne : et ≠ "All Types" := fun hc => hAT (hc ▸ hetET)
      rw [if_neg (fun hc => hetne hc.2.1)]
      rcases List.mem_cons.mp hloc with rfl | hlocL
      · rw [if_neg (fun hc => hAC hc.2.2), if_pos ⟨hm, hetET, rfl⟩]
      · have hlocne : loc ≠ "All Cities" := fun hc => hAC (hc ▸ hlocL)
        rw [if_pos ⟨hm, hetET, hlocL⟩, if_neg (fun hc => hlocne hc.2.2)]
  · rw [get_combined_df_eq_map, List.length_map, (sortByMonth_perm _).length_eq,
      combinedUnsorted_eq events movements hETnd hLne hmov,
      List.length_append, allTypesBlock_length hETne hLnd hAC]
    unfold modelRes2 modelRes1
    rw [List.length_append, List.length_map, get_blank_df_length,
      List.length_map, monthTypePairs_length]
    ring

/-- Movement data for the concrete witnesses: one row per month of
2022 for Blue City. -/
def witnessMovements : List MoveRow :=
  (List.range 12).map (fun i =>
    { dt := ⟨2022, i + 1, 1, 0, 0, 0⟩, n_movements := 1000,
      location := "Blue City", month := ⟨2022, i + 1⟩ })

/-- C1, instantiated at concrete data. -/
theorem C1_grid_complete_witness :
    (∀ m ∈ monthsOfYear 2022, ∀ et ∈ ("All Types" :: ["Loss of Separation"]),
      ∀ loc ∈ ("All Cities" :: ["Blue City"]),
      ((get_combined_df witnessMovements []
        (get_blank_df ["Loss of Separation"] ["Blue City"] 2022)).filter
        (fun r => decide (r.month = monthName m.month ∧ r.event_type = et ∧
          r.location = loc))).length = 1) ∧
    (get_combined_df witnessMovements []
      (get_blank_df ["Loss of Separation"] ["Blue City"] 2022)).length =
      12 * (["Loss of Separation"].length + 1) * (["Blue City"].length + 1) :=
  C1_grid_complete [] witnessMovements ["Loss of Separation"] ["Blue City"] 2022
    (by decide) (by decide) (by decide) (by decide) (by decide) (by decide)
    (by unfold oneMovementPerCell witnessMovements; decide)

/-- C10: the rows of the final table are in non-decreasing
chronological month order, and the month-name string column is
produced from that sorted period sequence — so it is ordered
chronologically, not alphabetically. -/
theorem C10_month_sorted (movements_df : List MoveRow)
    (events_df : List EventRow) (blank_df : List BlankRow) :
    ∃ ps : List Period,
      List.Pairwise (fun p q => p.year < q.year ∨
        (p.year = q.year ∧ p.month ≤ q.month)) ps ∧
      (get_combined_df movements_df events_df blank_df).map (fun r => r.month) =
        ps.map (fun p => monthName p.month) := by
  refine ⟨(sortByMonth (combinedUnsorted movements_df events_df blank_df)).map
    (fun r => r.month), ?_, ?_⟩
  · have hs : List.Pairwise rowLeByMonth
        (sortByMonth (combinedUnsorted movements_df events_df blank_df)) :=
      List.sorted_insertionSort rowLeByMonth
        (combinedUnsorted movements_df events_df blank_df)
    refine List.Pairwise.map (fun r => r.month) ?_ hs
    intro a b hab
    unfold rowLeByMonth periodLeB at hab
    simp only [Bool.or_eq_true, Bool.and_eq_true, decide_eq_true_eq] at hab
    exact hab
  · rw [get_combined_df_eq_map, List.map_map, List.map_map]
    rfl

/-- C2: every row of the final table with a positive movement count —
the synthetic `'All Cities'` and `'All Types'` rows included —
satisfies `event_rate = n_events / (n_movements / 1000)`; in
particular the `'All Types'` rate equals total events per movement
even though the code forms it by summing per-type rates. -/
theorem C2_event_rate (events : List EventRow) (movements : List MoveRow)
    (ET L : List String) (year : Int)
    (hETnd : ET.Nodup) (hLnd : L.Nodup) (hETne : ET ≠ []) (hLne : L ≠ [])
    (hAC : "All Cities" ∉ L)
    (hmov : oneMovementPerCell movements L year) :
    ∀ r ∈ get_combined_df movements events (get_blank_df ET L year),
      0 < r.n_movements →
      r.event_rate = r.n_events / (r.n_movements / 1000) := by
  intro r hr _
  obtain ⟨r0, hr0, rfl⟩ := (mem_output hETnd hLne hmov).mp hr
  rcases List.mem_append.mp hr0 with hATm | hr2
  · obtain ⟨_, hm, hlocs, heq⟩ := mem_allTypesBlock hETne hATm
    rcases hlocs with hlocL | hlocAll
    · rw [heq, allTypesRowAt_real hLnd hETne hm hlocL hAC]
      rfl
    · rw [heq, hlocAll, allTypesRowAt_all hETne hm hAC]
      rfl
  · rcases List.mem_append.mp hr2 with h1 | h2
    · obtain ⟨_, _, _, heq⟩ := mem_modelRes1.mp h1
      rw [heq]
      rfl
    · obtain ⟨_, _, heq⟩ := mem_modelAllCities.mp h2
      rw [heq]
      rfl

/-- A row of the witness output: March for Blue City with no events. -/
def witnessRow : FinalRow :=
  { month := "March", event_type := "Loss of Separation",
    location := "Blue City", n_events := 0, n_movements := 1000,
    event_rate := 0 }

set_option maxRecDepth 10000 in
/-- C2, instantiated at concrete data and a concrete output row. -/
theorem C2_event_rate_witness :
    witnessRow.event_rate = witnessRow.n_events /
      (witnessRow.n_movements / 1000) :=
  C2_event_rate [] witnessMovements ["Loss of Separation"] ["Blue City"] 2022
    (by decide) (by decide) (by decide) (by decide) (by decide)
    (by unfold oneMovementPerCell witnessMovements; decide)
    witnessRow (by with_unfolding_all decide) (by decide)

/-- C7: a grid key with no matching event records still yields a row,
with `n_events = 0` and `event_rate = 0`, and exactly one such row —
never a missing row or a null count. -/
theorem C7_zero_filled (events : List EventRow) (movements : List MoveRow)
    (ET L : List String) (year : Int)
    (hETnd : ET.Nodup) (hLnd : L.Nodup) (hETne : ET ≠ []) (hLne : L ≠ [])
    (hAT : "All Types" ∉ ET) (hAC : "All Cities" ∉ L)
    (hmov : oneMovementPerCell movements L year) :
    ∀ m ∈ monthsOfYear year, ∀ et ∈ ET, ∀ loc ∈ L,
      events.filter (fun e => decide (e.event_type = et ∧ e.month = m ∧
        e.location = loc)) = [] →
      0 < movementsAt movements loc m →
      (((get_combined_df movements events (get_blank_df ET L year)).filter
        (fun r => decide (r.month = monthName m.month ∧ r.event_type = et ∧
          r.location = loc))).length = 1 ∧
      ∀ r ∈ get_combined_df movements events (get_blank_df ET L year),
        (r.month = monthName m.month ∧ r.event_type = et ∧ r.location = loc) →
        r.n_events = 0 ∧ r.event_rate = 0) := by
  intro m hm et het loc hloc hnoev _
  have hcount : countEvents events et m loc = 0 := by
    unfold countEvents
    rw [hnoev]
    rfl
  constructor
  · rw [output_countP_key events movements hETnd hLnd hETne hLne hmov hm et loc]
    have hetne : et ≠ "All Types" := fun hc => hAT (hc ▸ het)
    have hlocne : loc ≠ "All Cities" := fun hc => hAC (hc ▸ hloc)
    rw [if_neg (fun hc => hetne hc.2.1), if_pos ⟨hm, het, hloc⟩,
      if_neg (fun hc => hlocne hc.2.2)]
  · intro r hr hkey
    obtain ⟨r0, hr0, rfl⟩ := (mem_output hETnd hLne hmov).mp hr
    obtain ⟨hknm, hket, hkloc⟩ := hkey
    rcases List.mem_append.mp hr0 with hATm | hr2
    · have hty : r0.event_type = "All Types" := allTypesRows_eventType hATm
      have hket2 : r0.event_type = et := hket
      have hetAll : et = "All Types" := hket2.symm.trans hty
      exact absurd (hetAll ▸ het) hAT
    · rcases List.mem_append.mp hr2 with h1 | h2
      · obtain ⟨hm0, _, _, heq⟩ := mem_modelRes1.mp h1
        have hknm2 : monthName r0.month.month = monthName m.month := hknm
        have hmonth : r0.month = m := (monthName_eq_iff hm0 hm).mp hknm2
        have hty : r0.event_type = et := hket
        have hlo : r0.location = loc := hkloc
        constructor
        · show r0.n_events = 0
          rw [heq, hty, hlo, hmonth]
          show ((countEvents events et m loc : ℚ)) = 0
          rw [hcount]
          norm_num
        · show r0.event_rate = 0
          rw [heq, hty, hlo, hmonth]
          show (countEvents events et m loc : ℚ) /
            (movementsAt movements loc m / 1000) = 0
          rw [hcount]
          norm_num
      · obtain ⟨_, _, heqAC⟩ := mem_modelAllCities.mp h2
        have hlo : r0.location = loc := hkloc
        have hAll : r0.location = "All Cities" := by rw [heqAC]; rfl
        rw [hAll] at hlo
        exact absurd hloc (hlo ▸ hAC)

set_option maxRecDepth 10000 in
/-- C7, instantiated at concrete data and the concrete zero row. -/
theorem C7_zero_filled_witness :
    (((get_combined_df witnessMovements []
      (get_blank_df ["Loss of Separation"] ["Blue City"] 2022)).filter
        (fun r => decide (r.month = monthName (3 : Nat) ∧
          r.event_type = "Loss of Separation" ∧
          r.location = "Blue City"))).length = 1) ∧
    (witnessRow.n_events = 0 ∧ witnessRow.event_rate = 0) := by
  have h := C7_zero_filled [] witnessMovements ["Loss of Separation"]
    ["Blue City"] 2022 (by decide) (by decide) (by decide) (by decide)
    (by decide) (by decide)
    (by unfold oneMovementPerCell witnessMovements; decide)
    ⟨2022, 3⟩ (by decide) "Loss of Separation" (by decide) "Blue City"
    (by decide) rfl (by with_unfolding_all decide)
  exact ⟨h.1, h.2 witnessRow (by with_unfolding_all decide) (by decide)⟩

/-! ## Sums over the final table -/

theorem modelRes1_filter_monthType {events : List EventRow}
    {movements : List MoveRow} {ET L : List String} {year : Int}
    {m0 : Period} {et0 : String} (hETnd : ET.Nodup)
    (hmem : (m0, et0) ∈ monthTypePairs ET year) :
    (modelRes1 events movements ET L year).filter (fun r =>
        decide ((r.month, r.event_type) = (m0, et0))) =
      L.map (fun loc => gridRateRow events movements et0 m0 loc) := by
  unfold modelRes1
  rw [List.filter_map]
  have hcomp : ((fun r : RateRow =>
      decide ((r.month, r.event_type) = (m0, et0))) ∘ (fun b : BlankRow =>
        gridRateRow events movements b.event_type b.month b.location)) =
      fun b : BlankRow => decide ((b.month, b.event_type) = (m0, et0)) := by
    funext b
    simp [gridRateRow]
  rw [hcomp, blank_filter_pair hETnd hmem, List.map_map]
  rfl

/-- Transfer of a filtered column sum from the final table to the
combined blocks. -/
theorem output_filter_sum (events : List EventRow) (movements : List MoveRow)
    {ET L : List String} {year : Int}
    (hETnd : ET.Nodup) (hLne : L ≠ [])
    (hmov : oneMovementPerCell movements L year)
    (pF : FinalRow → Bool) (p : RateRow → Bool)
    (f : FinalRow → ℚ) (g : RateRow → ℚ)
    (hpred : ∀ r ∈ allTypesRows (modelRes2 events movements ET L year) ++
      modelRes2 events movements ET L year, pF (toFinalRow r) = p r)
    (hproj : ∀ r : RateRow, f (toFinalRow r) = g r) :
    (((get_combined_df movements events (get_blank_df ET L year)).filter
      pF).map f).sum =
    (((allTypesRows (modelRes2 events movements ET L year) ++
      modelRes2 events movements ET L year).filter p).map g).sum := by
  rw [get_combined_df_eq_map, List.filter_map, List.map_map]
  have hperm : List.Perm ((sortByMonth (combinedUnsorted movements events
      (get_blank_df ET L year))).filter (pF ∘ toFinalRow))
      ((combinedUnsorted movements events (get_blank_df ET L year)).filter
        (pF ∘ toFinalRow)) :=
    (sortByMonth_perm _).filter _
  rw [(hperm.map (f ∘ toFinalRow)).sum_eq,
    combinedUnsorted_eq events movements hETnd hLne hmov]
  have hfc : List.filter (pF ∘ toFinalRow)
      (allTypesRows (modelRes2 events movements ET L year) ++
        modelRes2 events movements ET L year) =
      List.filter p (allTypesRows (modelRes2 events movements ET L year) ++
        modelRes2 events movements ET L year) :=
    List.filter_congr (fun r hr => hpred r hr)
  rw [hfc]
  apply congrArg
  apply List.map_congr_left
  intro r _
  exact hproj r

/-- The combined rows at a real `(month, event_type)` key across the
grid locations are exactly the per-city rows. -/
theorem blocks_filter_realLocs (events : List EventRow)
    (movements : List MoveRow) {ET L : List String} {year : Int}
    (hETnd : ET.Nodup) (hAT : "All Types" ∉ ET) (hAC : "All Cities" ∉ L)
    {m : Period} {et : String} (hm : m ∈ monthsOfYear year) (het : et ∈ ET) :
    (allTypesRows (modelRes2 events movements ET L year) ++
      modelRes2 events movements ET L year).filter (fun x =>
        decide (x.month = m ∧ x.event_type = et ∧ x.location ∈ L)) =
      L.map (fun loc => gridRateRow events movements et m loc) := by
  have h1 : (allTypesRows (modelRes2 events movements ET L year)).filter
      (fun x => decide (x.month = m ∧ x.event_type = et ∧ x.location ∈ L)) =
      [] := by
    rw [List.filter_eq_nil_iff]
    intro x hx
    simp only [decide_eq_true_eq]
    rintro ⟨_, hty, _⟩
    exact hAT ((allTypesRows_eventType hx ▸ hty : "All Types" = et) ▸ het)
  rw [List.filter_append, h1]
  unfold modelRes2
  rw [List.filter_append]
  have h2 : (modelRes1 events movements ET L year).filter
      (fun x => decide (x.month = m ∧ x.event_type = et ∧ x.location ∈ L)) =
      (modelRes1 events movements ET L year).filter
        (fun x => decide ((x.month, x.event_type) = (m, et))) := by
    apply List.filter_congr
    intro x hx
    obtain ⟨_, _, hlx, _⟩ := mem_modelRes1.mp hx
    simp only [decide_eq_decide, Prod.mk.injEq]
    constructor
    · rintro ⟨a, b, _⟩; exact ⟨a, b⟩
    · rintro ⟨a, b⟩; exact ⟨a, b, hlx⟩
  have h3 : ((monthTypePairs ET year).map (fun k =>
      allCitiesRateRow events movements L k.1 k.2)).filter (fun x =>
        decide (x.month = m ∧ x.event_type = et ∧ x.location ∈ L)) = [] := by
    rw [List.filter_eq_nil_iff]
    intro x hx
    obtain ⟨_, _, heq⟩ := mem_modelAllCities.mp hx
    simp only [decide_eq_true_eq]
    rintro ⟨_, _, hlx⟩
    have : x.location = "All Cities" := by rw [heq]; rfl
    exact hAC (this ▸ hlx)
  rw [h2, h3,
    modelRes1_filter_monthType hETnd (mem_monthTypePairs.mpr ⟨hm, het⟩),
    List.nil_append, List.append_nil]

/-- The combined rows at a real `(month, location)` key across the
real event types are exactly the per-city rows. -/
theorem blocks_filter_realTypes (events : List EventRow)
    (movements : List MoveRow) {ET L : List String} {year : Int}
    (hLnd : L.Nodup) (hAT : "All Types" ∉ ET) (hAC : "All Cities" ∉ L)
    {m : Period} {loc : String} (hm : m ∈ monthsOfYear year) (hloc : loc ∈ L) :
    (allTypesRows (modelRes2 events movements ET L year) ++
      modelRes2 events movements ET L year).filter (fun x =>
        decide (x.month = m ∧ x.event_type ∈ ET ∧ x.location = loc)) =
      ET.map (fun et => gridRateRow events movements et m loc) := by
  have h1 : (allTypesRows (modelRes2 events movements ET L year)).filter
      (fun x => decide (x.month = m ∧ x.event_type ∈ ET ∧ x.location = loc)) =
      [] := by
    rw [List.filter_eq_nil_iff]
    intro x hx
    simp only [decide_eq_true_eq]
    rintro ⟨_, hty, _⟩
    exact hAT (allTypesRows_eventType hx ▸ hty)
  rw [List.filter_append, h1]
  unfold modelRes2
  rw [List.filter_append]
  have h2 : (modelRes1 events movements ET L year).filter
      (fun x => decide (x.month = m ∧ x.event_type ∈ ET ∧ x.location = loc)) =
      (modelRes1 events movements ET L year).filter
        (fun x => decide ((x.month, x.location) = (m, loc))) := by
    apply List.filter_congr
    intro x hx
    obtain ⟨_, hty, _, _⟩ := mem_modelRes1.mp hx
    simp only [decide_eq_decide, Prod.mk.injEq]
    constructor
    · rintro ⟨a, _, c⟩; exact ⟨a, c⟩
    · rintro ⟨a, c⟩; exact ⟨a, hty, c⟩
  have h3 : ((monthTypePairs ET year).map (fun k =>
      allCitiesRateRow events movements L k.1 k.2)).filter (fun x =>
        decide (x.month = m ∧ x.event_type ∈ ET ∧ x.location = loc)) = [] := by
    rw [List.filter_eq_nil_iff]
    intro x hx
    obtain ⟨_, _, heq⟩ := mem_modelAllCities.mp hx
    simp only [decide_eq_true_eq]
    rintro ⟨_, _, hlx⟩
    have hxa : x.location = "All Cities" := by rw [heq]; rfl
    rw [hxa] at hlx
    exact hAC (hlx ▸ hloc)
  rw [h2, h3, modelRes1_filter_monthLoc hLnd hm hloc,
    List.nil_append, List.append_nil]

/-- C3: for every (month, real event type), the `'All Cities'` row's
`n_events` and `n_movements` equal the sums over the real-location
rows of that key, and its `event_rate` is recomputed from those
summed values rather than averaged. -/
theorem C3_allCities_sums (events : List EventRow) (movements : List MoveRow)
    (ET L : List String) (year : Int)
    (hETnd : ET.Nodup) (hLne : L ≠ [])
    (hAT : "All Types" ∉ ET) (hAC : "All Cities" ∉ L)
    (hmov : oneMovementPerCell movements L year) :
    ∀ m ∈ monthsOfYear year, ∀ et ∈ ET,
      ∀ r ∈ get_combined_df movements events (get_blank_df ET L year),
        (r.month = monthName m.month ∧ r.event_type = et ∧
          r.location = "All Cities") →
        (r.n_events = (((get_combined_df movements events
            (get_blank_df ET L year)).filter (fun x =>
            decide (x.month = monthName m.month ∧ x.event_type = et ∧
              x.location ∈ L))).map (fun x => x.n_events)).sum ∧
         r.n_movements = (((get_combined_df movements events
            (get_blank_df ET L year)).filter (fun x =>
            decide (x.month = monthName m.month ∧ x.event_type = et ∧
              x.location ∈ L))).map (fun x => x.n_movements)).sum ∧
         r.event_rate = r.n_events / (r.n_movements / 1000)) := by
  intro m hm et het r hr hkey
  have hpred : ∀ x ∈ allTypesRows (modelRes2 events movements ET L year) ++
      modelRes2 events movements ET L year,
      (fun y : FinalRow => decide (y.month = monthName m.month ∧
        y.event_type = et ∧ y.location ∈ L)) (toFinalRow x) =
      (fun y : RateRow => decide (y.month = m ∧ y.event_type = et ∧
        y.location ∈ L)) x := by
    intro x hx
    have hxm := combined_row_month hx
    simp only [toFinalRow, decide_eq_decide]
    rw [monthName_eq_iff hxm hm]
  have hblocks := blocks_filter_realLocs events movements hETnd hAT hAC hm het
  have houtE : (((get_combined_df movements events
      (get_blank_df ET L year)).filter (fun x =>
      decide (x.month = monthName m.month ∧ x.event_type = et ∧
        x.location ∈ L))).map (fun x => x.n_events)).sum =
      (L.map (fun loc => (countEvents events et m loc : ℚ))).sum := by
    rw [output_filter_sum events movements hETnd hLne hmov _ _
      (fun y => y.n_events) (fun y => y.n_events) hpred (fun _ => rfl),
      hblocks, List.map_map]
    rfl
  have houtM : (((get_combined_df movements events
      (get_blank_df ET L year)).filter (fun x =>
      decide (x.month = monthName m.month ∧ x.event_type = et ∧
        x.location ∈ L))).map (fun x => x.n_movements)).sum =
      (L.map (fun loc => movementsAt movements loc m)).sum := by
    rw [output_filter_sum events movements hETnd hLne hmov _ _
      (fun y => y.n_movements) (fun y => y.n_movements) hpred (fun _ => rfl),
      hblocks, List.map_map]
    rfl
  obtain ⟨r0, hr0, rfl⟩ := (mem_output hETnd hLne hmov).mp hr
  obtain ⟨hknm, hket, hkloc⟩ := hkey
  have hket2 : r0.event_type = et := hket
  have hkloc2 : r0.location = "All Cities" := hkloc
  have hknm2 : monthName r0.month.month = monthName m.month := hknm
  rcases List.mem_append.mp hr0 with hATm | hr2
  · have hty := allTypesRows_eventType hATm
    exact absurd ((hket2.symm.trans hty) ▸ het) hAT
  · rcases List.mem_append.mp hr2 with h1 | h2
    · obtain ⟨_, _, hlocL, _⟩ := mem_modelRes1.mp h1
      rw [hkloc2] at hlocL
      exact absurd hlocL hAC
    · obtain ⟨hm0, _, heq⟩ := mem_modelAllCities.mp h2
      have hmonth : r0.month = m := (monthName_eq_iff hm0 hm).mp hknm2
      refine ⟨?_, ?_, ?_⟩
      · show r0.n_events = _
        rw [houtE, heq]
        show (L.map (fun loc =>
          (countEvents events r0.event_type r0.month loc : ℚ))).sum = _
        rw [hket2, hmonth]
      · show r0.n_movements = _
        rw [houtM, heq]
        show (L.map (fun loc => movementsAt movements loc r0.month)).sum = _
        rw [hmonth]
      · show r0.event_rate = r0.n_events / (r0.n_movements / 1000)
        rw [heq]
        rfl

/-- The `'All Cities'` March row of the witness output. -/
def witnessRowAllCities : FinalRow :=
  { month := "March", event_type := "Loss of Separation",
    location := "All Cities", n_events := 0, n_movements := 1000,
    event_rate := 0 }

set_option maxRecDepth 10000 in
/-- C3, instantiated at concrete data and the concrete
`'All Cities'` row. -/
theorem C3_allCities_sums_witness :
    witnessRowAllCities.n_events = (((get_combined_df witnessMovements []
        (get_blank_df ["Loss of Separation"] ["Blue City"] 2022)).filter
        (fun x => decide (x.month = monthName (3 : Nat) ∧
          x.event_type = "Loss of Separation" ∧
          x.location ∈ ["Blue City"]))).map (fun x => x.n_events)).sum ∧
    witnessRowAllCities.n_movements = (((get_combined_df witnessMovements []
        (get_blank_df ["Loss of Separation"] ["Blue City"] 2022)).filter
        (fun x => decide (x.month = monthName (3 : Nat) ∧
          x.event_type = "Loss of Separation" ∧
          x.location ∈ ["Blue City"]))).map (fun x => x.n_movements)).sum ∧
    witnessRowAllCities.event_rate = witnessRowAllCities.n_events /
      (witnessRowAllCities.n_movements / 1000) :=
  C3_allCities_sums [] witnessMovements ["Loss of Separation"] ["Blue City"]
    2022 (by decide) (by decide) (by decide) (by decide)
    (by unfold oneMovementPerCell witnessMovements; decide)
    ⟨2022, 3⟩ (by decide) "Loss of Separation" (by decide)
    witnessRowAllCities (by with_unfolding_all decide) (by decide)

/-- C4: for every (month, real location), the `'All Types'` row's
`n_events` equals the sum over the real-event-type rows of that key,
and its `n_movements` is the location's own movement count, unchanged
from the movement data. -/
theorem C4_allTypes_sums (events : List EventRow) (movements : List MoveRow)
    (ET L : List String) (year : Int)
    (hETnd : ET.Nodup) (hLnd : L.Nodup) (hETne : ET ≠ []) (hLne : L ≠ [])
    (hAT : "All Types" ∉ ET) (hAC : "All Cities" ∉ L)
    (hmov : oneMovementPerCell movements L year) :
    ∀ m ∈ monthsOfYear year, ∀ loc ∈ L,
      ∀ r ∈ get_combined_df movements events (get_blank_df ET L year),
        (r.month = monthName m.month ∧ r.event_type = "All Types" ∧
          r.location = loc) →
        (r.n_events = (((get_combined_df movements events
            (get_blank_df ET L year)).filter (fun x =>
            decide (x.month = monthName m.month ∧ x.event_type ∈ ET ∧
              x.location = loc))).map (fun x => x.n_events)).sum ∧
         r.n_movements = movementsAt movements loc m) := by
  intro m hm loc hloc r hr hkey
  have hpred : ∀ x ∈ allTypesRows (modelRes2 events movements ET L year) ++
      modelRes2 events movements ET L year,
      (fun y : FinalRow => decide (y.month = monthName m.month ∧
        y.event_type ∈ ET ∧ y.location = loc)) (toFinalRow x) =
      (fun y : RateRow => decide (y.month = m ∧ y.event_type ∈ ET ∧
        y.location = loc)) x := by
    intro x hx
    have hxm := combined_row_month hx
    simp only [toFinalRow, decide_eq_decide]
    rw [monthName_eq_iff hxm hm]
  have hblocks := blocks_filter_realTypes events movements hLnd hAT hAC hm hloc
  have houtE : (((get_combined_df movements events
      (get_blank_df ET L year)).filter (fun x =>
      decide (x.month = monthName m.month ∧ x.event_type ∈ ET ∧
        x.location = loc))).map (fun x => x.n_events)).sum =
      (ET.map (fun et => (countEvents events et m loc : ℚ))).sum := by
    rw [output_filter_sum events movements hETnd hLne hmov _ _
      (fun y => y.n_events) (fun y => y.n_events) hpred (fun _ => rfl),
      hblocks, List.map_map]
    rfl
  obtain ⟨r0, hr0, rfl⟩ := (mem_output hETnd hLne hmov).mp hr
  obtain ⟨hknm, hket, hkloc⟩ := hkey
  have hket2 : r0.event_type = "All Types" := hket
  have hkloc2 : r0.location = loc := hkloc
  have hknm2 : monthName r0.month.month = monthName m.month := hknm
  rcases List.mem_append.mp hr0 with hATm | hr2
  · obtain ⟨_, hm0, _, heq⟩ := mem_allTypesBlock hETne hATm
    have hmonth : r0.month = m := (monthName_eq_iff hm0 hm).mp hknm2
    constructor
    · show r0.n_events = _
      rw [houtE, heq, hmonth, hkloc2,
        allTypesRowAt_real hLnd hETne hm hloc hAC]
      rfl
    · show r0.n_movements = _
      rw [heq, hmonth, hkloc2, allTypesRowAt_real hLnd hETne hm hloc hAC]
      rfl
  · rcases List.mem_append.mp hr2 with h1 | h2
    · obtain ⟨_, hty, _, _⟩ := mem_modelRes1.mp h1
      rw [hket2] at hty
      exact absurd hty hAT
    · obtain ⟨_, hty, _⟩ := mem_modelAllCities.mp h2
      rw [hket2] at hty
      exact absurd hty hAT

/-- The `'All Types'` March row of the witness output. -/
def witnessRowAllTypes : FinalRow :=
  { month := "March", event_type := "All Types", location := "Blue City",
    n_events := 0, n_movements := 1000, event_rate := 0 }

set_option maxRecDepth 10000 in
/-- C4, instantiated at concrete data and the concrete `'All Types'`
row. -/
theorem C4_allTypes_sums_witness :
    witnessRowAllTypes.n_events = (((get_combined_df witnessMovements []
        (get_blank_df ["Loss of Separation"] ["Blue City"] 2022)).filter
        (fun x => decide (x.month = monthName (3 : Nat) ∧
          x.event_type ∈ ["Loss of Separation"] ∧
          x.location = "Blue City"))).map (fun x => x.n_events)).sum ∧
    witnessRowAllTypes.n_movements =
      movementsAt witnessMovements "Blue City" ⟨2022, 3⟩ :=
  C4_allTypes_sums [] witnessMovements ["Loss of Separation"] ["Blue City"]
    2022 (by decide) (by decide) (by decide) (by decide) (by decide)
    (by decide) (by unfold oneMovementPerCell witnessMovements; decide)
    ⟨2022, 3⟩ (by decide) "Blue City" (by decide)
    witnessRowAllTypes (by with_unfolding_all decide) (by decide)

/-! ## Failing event loads -/

/-- A `mapM` over `Option` fails as a whole when any element fails. -/
theorem mapM_option_eq_none {α β : Type} {f : α → Option β} {l : List α}
    (h : ∃ a ∈ l, f a = none) : l.mapM f = none := by
  induction l with
  | nil => simp at h
  | cons x xs ih =>
    rw [List.mapM_cons]
    obtain ⟨a, ha, hfa⟩ := h
    rcases List.mem_cons.mp ha with rfl | hmem
    · rw [hfa]
      rfl
    · cases hfx : f x with
      | none => rfl
      | some v =>
        rw [ih ⟨a, hmem, hfa⟩]
        rfl

/-- C8: if any row of the events file has a date that does not parse
in the `%d-%m-%y` format, the whole event load fails — it yields no
(partial) dataset, rather than dropping the row. -/
theorem C8_unparseable_date_fails (raws : List RawEventRow) (year : Int)
    (h : ∃ r ∈ raws, parseDateDMY r.event_date = none) :
    get_events_data raws year = none := by
  have hm : raws.mapM (fun r =>
      (parseDateDMY r.event_date).map (fun d => (r, d))) = none := by
    obtain ⟨r, hr, hp⟩ := h
    exact mapM_option_eq_none ⟨r, hr, by rw [hp]; rfl⟩
  unfold get_events_data
  rw [hm]

/-- A raw event row whose date string is not in `%d-%m-%y` format. -/
def witnessBadRow : RawEventRow :=
  ⟨"1", "2022-05-01", "Facility Issue", "Not Applicable", "Red City"⟩

set_option maxRecDepth 100000 in
/-- C8, instantiated at a concrete malformed row. -/
theorem C8_unparseable_date_fails_witness :
    get_events_data [witnessBadRow] 2022 = none :=
  C8_unparseable_date_fails [witnessBadRow] 2022
    ⟨witnessBadRow, List.mem_singleton.mpr rfl, by with_unfolding_all decide⟩

/-! ## The secondary serialized subset -/

/-- Concatenating two mutually exclusive filters of a list permutes
the filter of their disjunction. -/
theorem filter_append_perm_filter_or {α : Type*} (l : List α)
    (p q : α → Bool) (hpq : ∀ a ∈ l, ¬(p a = true ∧ q a = true)) :
    List.Perm (l.filter p ++ l.filter q)
      (l.filter (fun a => p a || q a)) := by
  induction l with
  | nil => simp
  | cons x xs ih =>
    have ih2 := ih (fun a ha => hpq a (List.mem_cons_of_mem x ha))
    by_cases hp : p x = true
    · have hq : q x = false := by
        rcases Bool.eq_false_or_eq_true (q x) with h | h
        · exact absurd ⟨hp, h⟩ (hpq x (List.mem_cons_self x xs))
        · exact h
      simp only [List.filter_cons, hp, hq, Bool.or_self, Bool.true_or,
        if_true, if_false, Bool.false_eq_true, List.cons_append]
      exact ih2.cons x
    · have hp2 : p x = false := by
        rcases Bool.eq_false_or_eq_true (p x) with h | h
        · exact absurd h hp
        · exact h
      by_cases hq : q x = true
      · simp only [List.filter_cons, hp2, hq, Bool.false_or, if_true,
          if_false, Bool.false_eq_true]
        exact List.perm_middle.trans (ih2.cons x)
      · have hq2 : q x = false := by
          rcases Bool.eq_false_or_eq_true (q x) with h | h
          · exact absurd h hq
          · exact h
        simp only [List.filter_cons, hp2, hq2, Bool.false_or, if_false,
          Bool.false_eq_true]
        exact ih2

/-- C9: the secondary serialized subset consists exactly —
as a collection of rows, each carrying event date, event type,
aircraft register and location — of the year-filtered event rows
whose type is Loss of Separation (any location), together with those
whose type is Facility Issue at Red City in May 2022. -/
theorem C9_selected_subset (raws : List RawEventRow) (evs : List EventRow)
    (hload : get_events_data raws 2022 = some evs) :
    List.Perm (selected_df evs) (evs.filter (fun e =>
      decide (e.event_type = "Loss of Separation" ∨
        (e.event_type = "Facility Issue" ∧ e.location = "Red City" ∧
          e.month = ⟨2022, 5⟩)))) := by
  unfold selected_df selected_los selected_fac
  have hperm := filter_append_perm_filter_or evs
    (fun e => decide (e.event_type = "Loss of Separation"))
    (fun e => decide (e.location = "Red City" ∧ e.month = ⟨2022, 5⟩ ∧
      e.event_type = "Facility Issue"))
    (fun e _ hand => by
      simp only [decide_eq_true_eq] at hand
      obtain ⟨h1, h2⟩ := hand
      have : "Loss of Separation" = "Facility Issue" := h1.symm.trans h2.2.2
      simp at this)
  refine hperm.trans (List.Perm.of_eq ?_)
  apply List.filter_congr
  intro e _
  rw [show ((fun e : EventRow =>
      decide (e.event_type = "Loss of Separation")) e ||
      (fun e : EventRow => decide (e.location = "Red City" ∧
        e.month = (⟨2022, 5⟩ : Period) ∧
        e.event_type = "Facility Issue")) e) =
      decide ((e.event_type = "Loss of Separation") ∨
        (e.location = "Red City" ∧ e.month = (⟨2022, 5⟩ : Period) ∧
          e.event_type = "Facility Issue")) from (Bool.decide_or _ _).symm,
    decide_eq_decide]
  constructor
  · rintro (h | ⟨h1, h2, h3⟩)
    · exact Or.inl h
    · exact Or.inr ⟨h3, h1, h2⟩
  · rintro (h | ⟨h1, h2, h3⟩)
    · exact Or.inl h
    · exact Or.inr ⟨h2, h3, h1⟩

/-- A well-formed raw event row for the C9 witness. -/
def witnessLosRaw : RawEventRow :=
  ⟨"1", "25-02-22", "Loss of Separation", "VH-ABC", "Green City"⟩

/-- The parsed form of `witnessLosRaw`. -/
def witnessLosEvent : EventRow :=
  ⟨"1", ⟨2022, 2, 25⟩, "Loss of Separation", "VH-ABC", "Green City",
    ⟨2022, 2⟩⟩

set_option maxRecDepth 100000 in
/-- C9, instantiated at a concrete one-row load. -/
theorem C9_selected_subset_witness :
    List.Perm (selected_df [witnessLosEvent])
      ([witnessLosEvent].filter (fun e =>
        decide (e.event_type = "Loss of Separation" ∨
          (e.event_type = "Facility Issue" ∧ e.location = "Red City" ∧
            e.month = ⟨2022, 5⟩)))) :=
  C9_selected_subset [witnessLosRaw] [witnessLosEvent]
    (by with_unfolding_all decide)

/-! ## Missing movement data (C5) -/

theorem allCitiesRows_location {rows : List RateRow} {r : RateRow}
    (hr : r ∈ allCitiesRows rows) : r.location = "All Cities" := by
  simp only [allCitiesRows, List.map_map, List.mem_map] at hr
  obtain ⟨k, _, rfl⟩ := hr
  rfl

/-- Every per-city row of the combined table (for an arbitrary blank
grid) carries a grid key that has at least one movement row. -/
theorem mem_res1_movement {events : List EventRow} {movements : List MoveRow}
    {blank : List BlankRow} {r : RateRow}
    (hr : r ∈ addEventRate (mergeMovements
      (mergeLeftEvents blank (groupEvents events)) movements)) :
    ∃ b ∈ blank, r.month = b.month ∧ r.location = b.location ∧
      ∃ mv ∈ movements, mv.month = b.month ∧ mv.location = b.location := by
  rw [mergeLeftEvents_groupEvents] at hr
  unfold addEventRate mergeMovements at hr
  rw [List.flatMap_map] at hr
  simp only [List.mem_map, List.mem_flatMap, List.mem_filter,
    decide_eq_true_eq] at hr
  obtain ⟨r0, ⟨b, hb, mv, ⟨hmv, hkey⟩, rfl⟩, rfl⟩ := hr
  exact ⟨b, hb, rfl, rfl, mv, hmv, hkey⟩

/-- C5 (amended): a grid row whose `(month, location)` has no match
in the movement data is silently dropped by the inner merge of
line 100 — the final table contains no row for that key, no
zero-filled substitute, and no error is raised. -/
theorem C5_missing_movement_dropped (events : List EventRow)
    (movements : List MoveRow) (blank : List BlankRow) (year : Int)
    (m0 : Period) (et0 loc0 : String)
    (hb : ∀ b ∈ blank, b.month ∈ monthsOfYear year)
    (hm : m0 ∈ monthsOfYear year)
    (hnomov : movements.filter (fun mv =>
      decide (mv.month = m0 ∧ mv.location = loc0)) = [])
    (hloc : loc0 ≠ "All Cities") (het : et0 ≠ "All Types") :
    (get_combined_df movements events blank).filter (fun r =>
      decide (r.month = monthName m0.month ∧ r.event_type = et0 ∧
        r.location = loc0)) = [] := by
  rw [get_combined_df_eq_map, List.filter_map]
  rw [List.filter_eq_nil_iff.mpr, List.map_nil]
  intro r0 hr0
  have hr1 : r0 ∈ combinedUnsorted movements events blank :=
    (sortByMonth_perm _).mem_iff.mp hr0
  simp only [Function.comp, toFinalRow, decide_eq_true_eq]
  rintro ⟨hknm, hket2, hkloc2⟩
  have hr2 : r0 ∈ allTypesRows
      ((addEventRate (mergeMovements
        (mergeLeftEvents blank (groupEvents events)) movements)) ++
       allCitiesRows (addEventRate (mergeMovements
        (mergeLeftEvents blank (groupEvents events)) movements))) ++
      ((addEventRate (mergeMovements
        (mergeLeftEvents blank (groupEvents events)) movements)) ++
       allCitiesRows (addEventRate (mergeMovements
        (mergeLeftEvents blank (groupEvents events)) movements))) := hr1
  rcases List.mem_append.mp hr2 with hA | hB
  · exact het (hket2.symm.trans (allTypesRows_eventType hA))
  · rcases List.mem_append.mp hB with h1 | h2
    · obtain ⟨b, hbmem, hbm, hbl, mv, hmvmem, hmv1, hmv2⟩ :=
        mem_res1_movement h1
      have hbm2 : r0.month ∈ monthsOfYear year := hbm ▸ hb b hbmem
      have hmonth : r0.month = m0 := (monthName_eq_iff hbm2 hm).mp hknm
      have hmem2 : mv ∈ movements.filter (fun mv =>
          decide (mv.month = m0 ∧ mv.location = loc0)) := by
        rw [List.mem_filter]
        refine ⟨hmvmem, ?_⟩
        simp only [decide_eq_true_eq]
        exact ⟨hmv1.trans (hbm.symm.trans hmonth),
          hmv2.trans (hbl.symm.trans hkloc2)⟩
      rw [hnomov] at hmem2
      cases hmem2
    · exact hloc (hkloc2.symm.trans (allCitiesRows_location h2))

/-- Movement data covering only February 2022 for Blue City. -/
def witnessMovementsFeb : List MoveRow :=
  [{ dt := ⟨2022, 2, 1, 0, 0, 0⟩, n_movements := 1500,
     location := "Blue City", month := ⟨2022, 2⟩ }]

set_option maxRecDepth 100000 in
/-- C5 counterexample: with the January movement row missing, the
blank grid has a January row, yet `get_combined_df` returns a normal
table (four rows) from which every January row is simply absent — the
missing cell is neither flagged nor rejected, and no zero-movement
row is produced. -/
theorem C5_counterexample :
    ((get_blank_df ["Loss of Separation"] ["Blue City"] 2022).filter
      (fun b => decide (b.month = (⟨2022, 1⟩ : Period)))).length = 1 ∧
    (get_combined_df witnessMovementsFeb []
      (get_blank_df ["Loss of Separation"] ["Blue City"] 2022)).filter
      (fun r => decide (r.month = "January")) = [] ∧
    (get_combined_df witnessMovementsFeb []
      (get_blank_df ["Loss of Separation"] ["Blue City"] 2022)).length = 4 :=
  ⟨by decide, by with_unfolding_all decide, by with_unfolding_all decide⟩

set_option maxRecDepth 100000 in
/-- C5 (amended), instantiated at the concrete missing-January data. -/
theorem C5_missing_movement_dropped_witness :
    (get_combined_df witnessMovementsFeb []
      (get_blank_df ["Loss of Separation"] ["Blue City"] 2022)).filter
      (fun r => decide (r.month = monthName (1 : Nat) ∧
        r.event_type = "Loss of Separation" ∧
        r.location = "Blue City")) = [] :=
  C5_missing_movement_dropped [] witnessMovementsFeb
    (get_blank_df ["Loss of Separation"] ["Blue City"] 2022) 2022
    ⟨2022, 1⟩ "Loss of Separation" "Blue City"
    (by decide) (by decide) (by decide) (by decide) (by decide)

/-! ## No per-month aggregation in the movement loader (C6) -/

set_option maxRecDepth 100000 in
/-- C6 counterexample: two Blue City raw rows in the same calendar
month (counts 5 and 7) come out of `get_movements_data` as two
separate rows with their original counts — not one summed row. -/
theorem C6_counterexample :
    get_movements_data [⟨⟨2022, 1, 5, 0, 0, 0⟩, 5⟩,
      ⟨⟨2022, 1, 20, 0, 0, 0⟩, 7⟩] [] [] [] 2022 =
      [{ dt := ⟨2022, 1, 5, 0, 0, 0⟩, n_movements := 5,
         location := "Blue City", month := ⟨2022, 1⟩ },
       { dt := ⟨2022, 1, 20, 0, 0, 0⟩, n_movements := 7,
         location := "Blue City", month := ⟨2022, 1⟩ }] := by
  with_unfolding_all decide

/-- C6 (amended): the movement loader performs no per-month
aggregation at all — for each month, it emits exactly one output row
per year-matching raw row of the city file, carrying that row's own
count; duplicate months are carried forward into the join rather than
summed. -/
theorem C6_no_monthly_aggregation (blue : List RawMoveRow) (year : Int)
    (m : Period) :
    ((get_movements_data blue [] [] [] year).filter (fun mv =>
      decide (mv.month = m))).length =
    (blue.filter (fun r =>
      decide (r.dt.year = year ∧ r.dt.toPeriod = m))).length := by
  unfold get_movements_data
  simp only [List.map_nil, List.append_nil]
  rw [List.filter_map, List.filter_filter, List.filter_map,
    List.length_map, List.length_map]
  congr 1
  apply List.filter_congr
  intro r _
  show (decide (r.dt.toPeriod = m) && decide (r.dt.year = year)) = _
  rw [← Bool.decide_and, decide_eq_decide]
  exact and_comm
